import Mathlib

/-!
Verification of the booking/slot concurrency and case-lifecycle subsystem of
the entaneer-mind backend. The TypeScript controllers are shallowly embedded
as pure Lean functions over an explicit database state. Prisma interactive
transactions are modelled by threading the state: a thrown error inside a
transaction discards the transaction's writes (the embedding returns the
pre-transaction state), while a normal return commits them.
-/

namespace EM

/-! ## JavaScript string helpers

The controllers manipulate tokens with JS string primitives
(toString, padStart, slice, startsWith, parseInt). All strings involved
are ASCII, so each primitive is modelled on the character list. -/

/-- Fuel-driven digit rendering; the fuel only bounds the recursion depth
and never runs out when it is at least the number. -/
def decCharsF : Nat → Nat → List Char
  | 0, n => [Nat.digitChar n]
  | f + 1, n =>
    if n < 10 then [Nat.digitChar n]
    else decCharsF f (n / 10) ++ [Nat.digitChar (n % 10)]

/-- Decimal digit characters of a natural number, most significant first.
Models the output of JS Number.prototype.toString for a nonnegative integer. -/
def decChars (n : Nat) : List Char := decCharsF n n

/-- Decimal rendering of a natural number (JS String(n) / n.toString()). -/
def decStr (n : Nat) : String := ⟨decChars n⟩

/-- JS String.prototype.padStart with a pad character: pad on the left up to
the target length, no-op when the string is already long enough. -/
def jsPadStart (s : String) (n : Nat) (c : Char) : String :=
  ⟨List.replicate (n - s.data.length) c ++ s.data⟩

/-- JS s.slice(k) for a nonnegative index. -/
def jsSliceFrom (s : String) (k : Nat) : String := ⟨s.data.drop k⟩

/-- JS s.slice(-2): the last two characters (the whole string when shorter). -/
def jsLast2 (s : String) : String := ⟨s.data.drop (s.data.length - 2)⟩

/-- JS s.startsWith(p). -/
def jsStartsWith (s p : String) : Bool := p.data.isPrefixOf s.data

/-- JS parseInt(s, 10) restricted to the strings the token code feeds it:
the value of the longest leading run of decimal digits, none when there is
no leading digit (parseInt would give NaN). -/
def jsParseIntD (s : String) : Option Nat :=
  let ds := s.data.takeWhile Char.isDigit
  if ds.isEmpty then none
  else some (ds.foldl (fun a c => a * 10 + (c.toNat - 48)) 0)

/-- Lower-casing of an ASCII letter (JS toLowerCase on the status inputs). -/
def lcChar (c : Char) : Char :=
  if 'A' ≤ c ∧ c ≤ 'Z' then Char.ofNat (c.toNat + 32) else c

/-- JS String.prototype.toLowerCase restricted to ASCII. -/
def jsToLower (s : String) : String := ⟨s.data.map lcChar⟩

/-- JS String.prototype.trim: strip leading and trailing whitespace. -/
def jsTrim (s : String) : String :=
  ⟨((s.data.dropWhile Char.isWhitespace).reverse.dropWhile
      Char.isWhitespace).reverse⟩

/-- JS truthiness of a nullable string column: null and the empty string are
falsy. -/
def strTruthy : Option String → Bool
  | some s => !s.isEmpty
  | none => false

/-- JS a || b for a nullable string a. -/
def jsOrStr (a : Option String) (b : String) : String :=
  match a with
  | some s => if s.isEmpty then b else s
  | none => b

/-! ## Data model (sprint-2 Prisma schema)

Timestamps are epoch milliseconds (JS Date.getTime()). The clock also
carries the local calendar fields the token generator reads. -/

/-- A wall-clock instant as the controllers observe it: epoch milliseconds
(Date.getTime) plus the local calendar year (getFullYear) and zero-based
month (getMonth). -/
structure Clock where
  ms : Int
  year : Nat
  month : Nat
  deriving Repr, DecidableEq

/-- Session row: a bookable time slot. tagIds models the problemTags
many-to-many relation. -/
structure Session where
  sessionId : Nat
  counselorId : Option Nat := none
  roomId : Option Nat := none
  timeStart : Option Int := none
  status : String := "available"
  caseId : Option Nat := none
  sessionToken : Option String := none
  sessionName : Option String := none
  counselorKeyword : Option String := none
  counselorNote : Option String := none
  counselorFollowup : Option String := none
  moodScale : Option Int := none
  tagIds : List Nat := []
  deriving Repr, DecidableEq

/-- Case row: a client's counseling engagement. -/
structure Case where
  caseId : Nat
  clientId : String
  counselorId : Option Nat := none
  status : String
  queueToken : Option String := none
  confirmedAt : Option Int := none
  waitingEnteredAt : Option Int := none
  priority : String := "medium"
  createdAt : Int := 0
  deriving Repr, DecidableEq

/-- SessionHistory row: one append-only audit record. -/
structure HistoryRecord where
  sessionId : Nat
  action : String
  details : String
  editedBy : Nat
  deriving Repr, DecidableEq

/-- Client profile row. -/
structure Client where
  userId : Nat
  clientId : String
  deriving Repr, DecidableEq

/-- User row, reduced to the fields the booking flow touches. -/
structure User where
  userId : Nat
  phoneNum : Option String := none
  deriving Repr, DecidableEq

/-- ProblemTag row. -/
structure PTag where
  id : Nat
  label : String
  isActive : Bool
  deriving Repr, DecidableEq

/-- The database state. nextCaseId models the serial primary-key counter for
Case rows. History records are kept in insertion order. -/
structure DB where
  sessions : List Session := []
  cases : List Case := []
  histories : List HistoryRecord := []
  clients : List Client := []
  users : List User := []
  tags : List PTag := []
  nextCaseId : Nat := 1
  deriving Repr, DecidableEq

/-- Transport-level outcome of a request: HTTP status and message. -/
structure Reply where
  status : Nat
  message : String
  deriving Repr, DecidableEq

/-! ## Query and update primitives (Prisma) -/

/-- prisma update on a unique caseId: rewrite every row with that id. -/
def updateCaseIn (cs : List Case) (cid : Nat) (f : Case → Case) : List Case :=
  cs.map (fun c => if c.caseId == cid then f c else c)

/-- prisma update on a unique sessionId: rewrite every row with that id. -/
def updateSessionIn (ss : List Session) (sid : Nat) (f : Session → Session) :
    List Session :=
  ss.map (fun s => if s.sessionId == sid then f s else s)

/-- prisma case.findFirst with orderBy createdAt desc: the matching row with
the greatest createdAt (first such row on ties; the database does not
promise a tie order, the model fixes one). -/
def findLatestCase (cs : List Case) (p : Case → Bool) : Option Case :=
  (cs.filter p).foldl
    (fun acc c =>
      match acc with
      | none => some c
      | some m => if m.createdAt < c.createdAt then some c else some m)
    none

/-- One step of selecting the greatest string (SQL orderBy desc / take 1). -/
def maxStep (acc : Option String) (t : String) : Option String :=
  match acc with
  | none => some t
  | some m => if m < t then some t else some m

/-- The queue tokens of the case table that start with the given year code
(the rows the where clause retains, projected to the token). -/
def matchTokens (cs : List Case) (p : String) : List String :=
  cs.filterMap (fun c =>
    match c.queueToken with
    | some t => if jsStartsWith t p then some t else none
    | none => none)

/-- prisma case.findFirst where queueToken startsWith pfx orderBy queueToken
desc, projected to the token: the lexicographically greatest queue token that
starts with the given two characters, none when no row matches. -/
def lastTokenMax (cs : List Case) (p : String) : Option String :=
  (matchTokens cs p).foldl maxStep none

/-! ## Token generation -/

/-- Academic-year two-character code computed by caseController
generateQueueToken: Buddhist year (Gregorian + 543), decremented for the
months January through May (getMonth() < 5), rendered in decimal and cut to
the last two characters with slice(-2). -/
def ccYearCode (clock : Clock) : String :=
  jsLast2 (decStr (clock.year + 543 - (if clock.month < 5 then 1 else 0)))

/-- Academic-year two-character code computed by getOrGenerateQueueToken in
the bookSession module: Buddhist year rendered in decimal and cut to the
last two characters, with no month adjustment. -/
def p9YearCode (clock : Clock) : String :=
  jsLast2 (decStr (clock.year + 543))

/-- Next queue token from a year code and the greatest existing matching
token: parseInt the characters after the first two, add one (1 when no token
matches), and left-pad the decimal rendering with zeros to four characters.
A token whose tail has no leading digit makes parseInt yield NaN, which JS
renders as the literal characters 0NaN after padding. -/
def nextTokenStr (p : String) (mx : Option String) : String :=
  match mx with
  | none => p ++ jsPadStart (decStr 1) 4 '0'
  | some t =>
    match jsParseIntD (jsSliceFrom t 2) with
    | some n => p ++ jsPadStart (decStr (n + 1)) 4 '0'
    | none => p ++ "0NaN"

/-- getOrGenerateQueueToken(caseId, tx) from the bookSession module: return
the case's token when it is truthy, otherwise compute the year code (no
month adjustment), find the greatest existing token with that two-character
lead, derive the next token and write it to the case. none models the
TypeError thrown when the case row does not exist. -/
def getOrGenerateQueueToken (db : DB) (caseId : Nat) (clock : Clock) :
    Option (DB × String) :=
  match db.cases.find? (fun c => c.caseId == caseId) with
  | none => none
  | some currentCase =>
    if strTruthy currentCase.queueToken then
      some (db, currentCase.queueToken.getD "")
    else
      let newToken := nextTokenStr (p9YearCode clock)
        (lastTokenMax db.cases (p9YearCode clock))
      some
        ({ db with
            cases := updateCaseIn db.cases caseId
              (fun c => { c with queueToken := some newToken }) },
          newToken)

/-- caseController generateQueueToken endpoint: find the client's latest
waiting_confirmation case; return its token when truthy; otherwise generate
the next token for the academic-year code (with the January-May decrement)
and persist it together with the priority and the waiting-room entry time.
Result: new state, HTTP status, token payload. -/
def generateQueueTokenCC (db : DB) (clientId : String) (priority : Option String)
    (clock : Clock) : DB × Nat × Option String :=
  match findLatestCase db.cases
      (fun c => c.clientId == clientId && c.status == "waiting_confirmation") with
  | none => (db, 404, none)
  | some currentCase =>
    if strTruthy currentCase.queueToken then
      (db, 200, currentCase.queueToken)
    else
      let newToken := nextTokenStr (ccYearCode clock)
        (lastTokenMax db.cases (ccYearCode clock))
      let db' := { db with
        cases := updateCaseIn db.cases currentCase.caseId
          (fun c =>
            { c with
                queueToken := some newToken,
                priority := jsOrStr priority "medium",
                waitingEnteredAt := some clock.ms }) }
      (db', 200, some newToken)

/-! ## Cancellation -/

/-- cancelBooking from the sprint-2 booking controller: ownership is checked
through the session's joined case, the 24-hour rule compares
(timeStart - now) / 3600000 < 24 (equivalently timeStart - now < 86400000,
the float division by a positive constant preserving the comparison), and
on success one transaction sets the case's status to cancelled and resets
the session to available with a null case reference. No history record is
written. -/
def cancelBooking (db : DB) (sessionId : Nat) (clientId : String) (now : Int) :
    DB × Reply :=
  if sessionId = 0 then
    (db, ⟨400, "Session ID and client authentication required"⟩)
  else
    match db.sessions.find? (fun s => s.sessionId == sessionId) with
    | none => (db, ⟨404, "Session not found"⟩)
    | some session =>
      match session.caseId.bind
          (fun cid => db.cases.find? (fun c => c.caseId == cid)) with
      | none => (db, ⟨403, "You can only cancel your own bookings"⟩)
      | some kase =>
        if kase.clientId ≠ clientId then
          (db, ⟨403, "You can only cancel your own bookings"⟩)
        else
          match session.timeStart with
          | none => (db, ⟨400, "Session does not have a valid start time"⟩)
          | some t =>
            if t - now < 86400000 then
              (db, ⟨400,
                "Cannot cancel bookings less than 24 hours before the session"⟩)
            else
              (({ db with
                  cases := updateCaseIn db.cases kase.caseId
                    (fun c => { c with status := "cancelled" }),
                  sessions := updateSessionIn db.sessions sessionId
                    (fun s => { s with status := "available", caseId := none }) }),
                ⟨200, "Booking cancelled successfully"⟩)

/-- cancelClientSession from the session controller: ownership requires a
truthy caseId whose case belongs to the client; on success the session is
reset to available with the case reference and the clinical fields cleared,
and one CLIENT_CANCELLED history record is appended. There is no lead-time
check and the case row is not touched. -/
def cancelClientSession (db : DB) (userId : Nat) (clientId : String)
    (sessionId : Nat) : DB × Reply :=
  if sessionId = 0 then (db, ⟨400, "Invalid sessionId"⟩)
  else
    match db.sessions.find? (fun s => s.sessionId == sessionId) with
    | none => (db, ⟨404, "Session not found"⟩)
    | some session =>
      let owned : Bool :=
        match session.caseId with
        | none => false
        | some cid =>
          if cid = 0 then false
          else
            match db.cases.find? (fun c => c.caseId == cid) with
            | some k => k.clientId == clientId
            | none => false
      if owned then
        (({ db with
            sessions := updateSessionIn db.sessions sessionId
              (fun s =>
                { s with
                    status := "available", caseId := none, sessionName := none,
                    counselorKeyword := none, counselorNote := none,
                    counselorFollowup := none, moodScale := none, tagIds := [] }),
            histories := db.histories ++
              [⟨sessionId, "CLIENT_CANCELLED", "cancelled by client", userId⟩] }),
          ⟨200, ""⟩)
      else (db, ⟨403, "You cannot cancel this session"⟩)

/-! ## Case status transitions -/

/-- normalizeStatus: trim, lower-case, and map postponed to rescheduled. -/
def normalizeStatus (status : String) : String :=
  let v := jsToLower (jsTrim status)
  if v == "postponed" then "rescheduled" else v

/-- Serialized detail payload of an appointment_status_updated record. -/
def statusDetails (prev next : String) (reason : Option String) : String :=
  "previousStatus=" ++ prev ++ ";newStatus=" ++ next ++ ";reason=" ++
    jsOrStr reason "null"

/-- updateAppointmentStatus from the case controller: validate the
normalized target status, check the assigned-counselor authorization, then
in one transaction update the case (status; counselorId falling back to the
actor when the stored one is falsy; confirmedAt stamped with the current
time exactly when the target is confirmed, otherwise written back
unchanged), release and unlink every session of the case when the target is
cancelled, and append one audit record per session the case had when the
transaction read it. -/
def updateAppointmentStatus (db : DB) (caseId : Nat) (rawStatus : String)
    (reason : Option String) (counselorId : Nat) (now : Int) : DB × Reply :=
  if caseId = 0 then (db, ⟨400, "Valid caseId is required"⟩)
  else if (jsTrim rawStatus).isEmpty then (db, ⟨400, "status is required"⟩)
  else
    let nextStatus := normalizeStatus rawStatus
    if ¬(nextStatus = "confirmed" ∨ nextStatus = "rescheduled" ∨
        nextStatus = "cancelled") then
      (db, ⟨400, "status must be one of: confirmed, rescheduled, cancelled"⟩)
    else
      match db.cases.find? (fun c => c.caseId == caseId) with
      | none => (db, ⟨404, "Case not found"⟩)
      | some currentCase =>
        let forbidden :=
          match currentCase.counselorId with
          | some k => k != 0 && k != counselorId
          | none => false
        if forbidden then (db, ⟨403, "You are not assigned to this case"⟩)
        else
          let caseSessions := db.sessions.filter (fun s => s.caseId == some caseId)
          let cases' := updateCaseIn db.cases caseId
            (fun c =>
              { c with
                  status := nextStatus,
                  counselorId := some
                    (match c.counselorId with
                      | some k => if k ≠ 0 then k else counselorId
                      | none => counselorId),
                  confirmedAt :=
                    if nextStatus = "confirmed" then some now else c.confirmedAt })
          let sessions' :=
            if nextStatus = "cancelled" then
              db.sessions.map (fun s =>
                if s.caseId == some caseId then
                  { s with status := "available", caseId := none }
                else s)
            else db.sessions
          let hist' := db.histories ++ caseSessions.map (fun s =>
            (⟨s.sessionId, "appointment_status_updated",
              statusDetails currentCase.status nextStatus reason,
              counselorId⟩ : HistoryRecord))
          ({ db with cases := cases', sessions := sessions', histories := hist' },
            ⟨200, "Appointment status updated successfully"⟩)

/-! ## Counselor case notes -/

/-- updateCaseNote from the session controller: validate the mood scale,
check the counselor owns the session, set the clinical fields, replace the
tag set with the submitted tags that exist and are active, set the status to
completed when markCompleted is true (otherwise keep it), and append one
COUNSELOR_NOTE_UPDATED history record. The case reference is not touched. -/
def updateCaseNote (db : DB) (counselorId userId sessionId : Nat)
    (moodScale : Int) (sessionSummary interventions followUp : String)
    (selectedTagIds : List Nat) (markCompleted : Bool) : DB × Reply :=
  if sessionId = 0 then (db, ⟨400, "Invalid sessionId"⟩)
  else if moodScale < 1 ∨ 5 < moodScale then
    (db, ⟨400, "moodScale must be 1-5"⟩)
  else
    match db.sessions.find? (fun s => s.sessionId == sessionId) with
    | none => (db, ⟨404, "Session not found"⟩)
    | some s =>
      if s.counselorId ≠ some counselorId then (db, ⟨403, "Forbidden"⟩)
      else
        let validTagIds :=
          (db.tags.filter (fun t => selectedTagIds.contains t.id && t.isActive)).map
            (fun t => t.id)
        (({ db with
            sessions := updateSessionIn db.sessions sessionId
              (fun s0 =>
                { s0 with
                    moodScale := some moodScale,
                    counselorKeyword := some sessionSummary,
                    counselorNote := some interventions,
                    counselorFollowup := some followUp,
                    status := if markCompleted then "completed" else s0.status,
                    tagIds := validTagIds }),
            histories := db.histories ++
              [⟨sessionId, "COUNSELOR_NOTE_UPDATED", "before-after snapshot",
                userId⟩] }),
          ⟨200, ""⟩)

/-! ## Booking (sprint-2 bookSlot) -/

/-- Serialized detail payload of a booking_created record. -/
def bookingDetails (description studentId faculty phone : Option String) :
    String :=
  "description=" ++ jsOrStr description "null" ++ ";studentId=" ++
    jsOrStr studentId "null" ++ ";faculty=" ++ jsOrStr faculty "null" ++
    ";phone=" ++ jsOrStr phone "null"

/-- The transaction of the sprint-2 bookSlot, together with the handler's
mapping of the two transaction errors. The reservation is the conditional
updateMany (status booked only where it is available); zero affected rows
throws SESSION_NOT_AVAILABLE, which aborts the transaction (the state is
returned unchanged) and is mapped to 409 with the slot-taken message. On
success a fresh case (status booked) is created, the session gets its case
reference, and a booking_created record is appended when the caller's userId
is known. -/
def bookSlotTxP9 (db : DB) (sid : Nat) (clientId : String) (userId : Option Nat)
    (now : Int) (details : String) : DB × Reply :=
  let matched := db.sessions.filter
    (fun s => s.sessionId == sid && s.status == "available")
  if matched.length = 0 then
    (db, ⟨409, "This slot was just booked by someone else. Please choose another time."⟩)
  else
    let sess1 := db.sessions.map (fun s =>
      if s.sessionId == sid && s.status == "available" then
        { s with status := "booked" }
      else s)
    match sess1.find? (fun s => s.sessionId == sid) with
    | none => (db, ⟨404, "Session not found"⟩)
    | some session =>
      let newCase : Case :=
        { caseId := db.nextCaseId, clientId := clientId,
          counselorId := session.counselorId, status := "booked",
          createdAt := now }
      let sess2 := updateSessionIn sess1 sid
        (fun s => { s with caseId := some db.nextCaseId })
      let hist :=
        match userId with
        | some uid =>
          db.histories ++ [⟨sid, "booking_created", details, uid⟩]
        | none => db.histories
      ({ db with
          sessions := sess2, cases := db.cases ++ [newCase],
          histories := hist, nextCaseId := db.nextCaseId + 1 },
        ⟨200, "Slot booked successfully"⟩)

/-- bookSlot from the sprint-2 booking controller, on the explicit-sessionId
path: look the session up requiring status available (404 otherwise),
require a start time, reject 409 when the client already has an active
appointment (a non-cancelled case with a future non-available session), then
run the booking transaction. -/
def bookSlotP9 (db : DB) (sid : Nat) (clientId : String) (userId : Option Nat)
    (now : Int) (details : String) : DB × Reply :=
  match db.sessions.find?
      (fun s => s.sessionId == sid && s.status == "available") with
  | none => (db, ⟨404, "Session not found or no longer available"⟩)
  | some sel =>
    match sel.timeStart with
    | none => (db, ⟨400, "Selected session does not have a valid start time"⟩)
    | some _ =>
      let active := db.cases.any (fun c =>
        c.clientId == clientId && c.status != "cancelled" &&
          db.sessions.any (fun s =>
            s.caseId == some c.caseId && s.status != "available" &&
              (match s.timeStart with
                | some t => now ≤ t
                | none => false)))
      if active then
        (db, ⟨409, "You already have an active appointment. Please cancel it before booking a new one."⟩)
      else bookSlotTxP9 db sid clientId userId now details

/-! ## Booking (bookSession with token issuance) -/

/-- Body of a POST /api/bookings/book request after shape validation. -/
structure BookReq where
  sessionId : Nat
  studentId : String
  phone : String
  description : Option String := none
  deriving Repr, DecidableEq

/-- Status a Case row receives from the schema default when bookSession
creates one without an explicit status. The migration that creates the Case
table is not part of the snapshot; the spec's case lifecycle starts at
waiting_confirmation, and no claim depends on this value. -/
def defaultCaseStatus : String := "waiting_confirmation"

/-- Nine decimal digits (the studentId shape check). -/
def isDigits9 (s : String) : Bool := s.data.length == 9 && s.data.all Char.isDigit

/-- Ten decimal digits (the phone shape check). -/
def isDigits10 (s : String) : Bool := s.data.length == 10 && s.data.all Char.isDigit

/-- Phone persistence step of bookSession: write the submitted phone to the
user row when it differs from the stored one (JS compares against the
stored value defaulted to the empty string). -/
def bookSessionPhone (db : DB) (userId : Nat) (user : User) (phone : String) :
    DB :=
  if (jsOrStr user.phoneNum "") ≠ phone then
    { db with users := db.users.map (fun u =>
        if u.userId == userId then { u with phoneNum := some phone } else u) }
  else db

/-- The booking transaction of bookSession, entered with the id of the
client's latest (or freshly created) case: load the session (404 when
missing or unscheduled), get or generate the queue token, count the
sessions already attached to the case, build the session token as
queueToken-sequence with the count plus one padded to three digits,
conditionally reserve the session (writing status, sessionName, case
reference and session token in one update), and append a CLIENT_BOOKED
record. A zero-row reservation returns 409 from inside the transaction
callback; that is a return, not a throw, so the writes already made in the
transaction (the queue token) are committed. -/
def bookSessionTx (db2 : DB) (userId : Nat) (latestCaseId : Nat)
    (req : BookReq) (clock : Clock) : DB × Reply :=
  match db2.sessions.find? (fun s => s.sessionId == req.sessionId) with
  | none => (db2, ⟨404, "Session not found"⟩)
  | some session =>
    match session.timeStart with
    | none => (db2, ⟨404, "Session not found"⟩)
    | some _ =>
      match getOrGenerateQueueToken db2 latestCaseId clock with
      | none => (db2, ⟨500, "Booking failed"⟩)
      | some (db3, caseToken) =>
        let sessionCount :=
          (db3.sessions.filter (fun s => s.caseId == some latestCaseId)).length
        let sessionToken :=
          caseToken ++ "-" ++ jsPadStart (decStr (sessionCount + 1)) 3 '0'
        let matched := db3.sessions.filter
          (fun s => s.sessionId == req.sessionId && s.status == "available")
        if matched.length ≠ 1 then (db3, ⟨409, "Session already booked"⟩)
        else
          let sess' := db3.sessions.map (fun s =>
            if s.sessionId == req.sessionId && s.status == "available" then
              { s with
                  status := "booked", sessionName := some req.studentId,
                  caseId := some latestCaseId,
                  sessionToken := some sessionToken }
            else s)
          ({ db3 with
              sessions := sess',
              histories := db3.histories ++
                [⟨req.sessionId, "CLIENT_BOOKED",
                  "studentId=" ++ req.studentId ++ ";phone=" ++ req.phone ++
                    ";description=" ++ jsOrStr req.description "",
                  userId⟩] },
            ⟨200, "Booked successfully"⟩)

/-- Continuation of bookSession once the client profile is settled: persist
the phone number on the user when it differs, find the client's most recent
case (create one with the schema defaults when none exists, its id being the
next serial value), then run the booking transaction against that case. -/
def bookSessionGo (db : DB) (userId : Nat) (user : User) (client : Client)
    (req : BookReq) (clock : Clock) : DB × Reply :=
  let db1 := bookSessionPhone db userId user req.phone
  match findLatestCase db1.cases (fun c => c.clientId == client.clientId) with
  | some c => bookSessionTx db1 userId c.caseId req clock
  | none =>
    bookSessionTx
      { db1 with
          cases := db1.cases ++
            [{ caseId := db1.nextCaseId, clientId := client.clientId,
               status := defaultCaseStatus, createdAt := clock.ms }],
          nextCaseId := db1.nextCaseId + 1 }
      userId db1.nextCaseId req clock

/-- bookSession from the bookings module: validate the studentId and phone
shapes, load the user, silently create a client profile with
clientId = studentId when the user has none and reject with 400 when the
existing profile's clientId differs from the submitted studentId, then
proceed to the reservation. -/
def bookSession (db : DB) (userId : Nat) (req : BookReq) (clock : Clock) :
    DB × Reply :=
  if ¬ isDigits9 req.studentId then (db, ⟨400, "studentId must be 9 digits"⟩)
  else if ¬ isDigits10 req.phone then (db, ⟨400, "phone must be 10 digits"⟩)
  else
    match db.users.find? (fun u => u.userId == userId) with
    | none => (db, ⟨404, "User not found"⟩)
    | some user =>
      match db.clients.find? (fun c => c.userId == userId) with
      | some client =>
        if client.clientId ≠ req.studentId then
          (db, ⟨400, "studentId does not match your client profile"⟩)
        else bookSessionGo db userId user client req clock
      | none =>
        let client : Client := ⟨userId, req.studentId⟩
        bookSessionGo { db with clients := db.clients ++ [client] } userId user
          client req clock

/-! ## Booking (first-schema bookingController.ts)

The repository also carries the earlier booking controller over the
Student/Case schema. Its bookSlot runs the same conditional-update
transaction, but every transaction error, including the zero-row
"Session is no longer available" throw, lands in the catch-all handler
that answers 500 "Failed to book slot". -/

namespace BC

/-- Session row of the first schema (timeStart is non-nullable there). -/
structure Session where
  sessionId : Nat
  counselorId : Option Nat := none
  timeStart : Int := 0
  status : String := "available"
  caseId : Option Nat := none
  deriving Repr, DecidableEq

/-- Case row of the first schema. -/
structure Case where
  caseId : Nat
  studentId : Nat
  counselorId : Option Nat := none
  status : String
  topic : String := ""
  deriving Repr, DecidableEq

/-- Student row of the first schema. -/
structure Student where
  studentId : Nat
  userId : Nat
  deriving Repr, DecidableEq

/-- Database state of the first schema. -/
structure St where
  sessions : List Session := []
  cases : List Case := []
  students : List Student := []
  nextCaseId : Nat := 1
  deriving Repr, DecidableEq

/-- bookSlot of bookingController.ts: falsy sessionId or userId is 400, a
missing student profile is 404; the transaction conditionally flips the
session to booked, creates a case and links it. Both transaction throws
(zero affected rows, vanished session) roll the transaction back and are
answered by the generic catch block as 500 "Failed to book slot". -/
def bookSlot (st : St) (sessionId userId : Nat) (description : Option String) :
    St × Reply :=
  if sessionId = 0 ∨ userId = 0 then
    (st, ⟨400, "Session ID and user authentication required"⟩)
  else
    match st.students.find? (fun s => s.userId == userId) with
    | none => (st, ⟨404, "Student not found"⟩)
    | some student =>
      let matched := st.sessions.filter
        (fun s => s.sessionId == sessionId && s.status == "available")
      if matched.length = 0 then (st, ⟨500, "Failed to book slot"⟩)
      else
        let sess1 := st.sessions.map (fun s =>
          if s.sessionId == sessionId && s.status == "available" then
            { s with status := "booked" }
          else s)
        match sess1.find? (fun s => s.sessionId == sessionId) with
        | none => (st, ⟨500, "Failed to book slot"⟩)
        | some session =>
          let newCase : Case :=
            { caseId := st.nextCaseId, studentId := student.studentId,
              counselorId := session.counselorId, status := "booked",
              topic := jsOrStr description "General counseling session" }
          let sess2 := sess1.map (fun s =>
            if s.sessionId == sessionId then { s with caseId := some st.nextCaseId }
            else s)
          ({ st with
              sessions := sess2, cases := st.cases ++ [newCase],
              nextCaseId := st.nextCaseId + 1 },
            ⟨200, "Slot booked successfully"⟩)

end BC

/-! ## The operation alphabet and the booked-iff-linked invariant -/

/-- One request against the core subsystem, with its arguments. opBookSlotTx
is the booking transaction entered after a stale lookup, the shape in which
the reservation race reaches the conditional update. -/
inductive Op where
  | opBookSlot (sid : Nat) (clientId : String) (userId : Option Nat) (now : Int)
      (details : String)
  | opBookSlotTx (sid : Nat) (clientId : String) (userId : Option Nat) (now : Int)
      (details : String)
  | opBookSession (userId : Nat) (req : BookReq) (clock : Clock)
  | opCancelBooking (sid : Nat) (clientId : String) (now : Int)
  | opCancelClient (userId : Nat) (clientId : String) (sid : Nat)
  | opUpdateStatus (caseId : Nat) (raw : String) (reason : Option String)
      (counselorId : Nat) (now : Int)
  | opUpdateNote (counselorId userId sid : Nat) (mood : Int)
      (summary interventions followUp : String) (tagIds : List Nat)
      (markCompleted : Bool)
  | opQueueTokenCC (clientId : String) (priority : Option String) (clock : Clock)
  | opQueueTokenP9 (caseId : Nat) (clock : Clock)
  deriving Repr, DecidableEq

/-- The state reached by one operation (the reply is discarded). -/
def stepDB (db : DB) : Op → DB
  | .opBookSlot sid c u n d => (bookSlotP9 db sid c u n d).1
  | .opBookSlotTx sid c u n d => (bookSlotTxP9 db sid c u n d).1
  | .opBookSession u req clock => (bookSession db u req clock).1
  | .opCancelBooking sid c n => (cancelBooking db sid c n).1
  | .opCancelClient u c sid => (cancelClientSession db u c sid).1
  | .opUpdateStatus cid raw r k n => (updateAppointmentStatus db cid raw r k n).1
  | .opUpdateNote k u sid m a b c tags mc =>
    (updateCaseNote db k u sid m a b c tags mc).1
  | .opQueueTokenCC c p clock => (generateQueueTokenCC db c p clock).1
  | .opQueueTokenP9 cid clock =>
    match getOrGenerateQueueToken db cid clock with
    | some (d, _) => d
    | none => db

/-- The state after a sequence of operations. -/
def runOps (db : DB) (ops : List Op) : DB := ops.foldl stepDB db

/-- The spec's session invariant: booked exactly when the case reference is
set. -/
def sessInvIffB (s : Session) : Bool :=
  (s.status == "booked") == s.caseId.isSome

/-- The spec's invariant over the whole state. -/
def dbInvIffB (db : DB) : Bool := db.sessions.all sessInvIffB

/-- The invariant the code actually maintains: a booked session has its case
reference set, and a session with a case reference is booked or completed
(completing a session keeps its case reference). -/
def sessInvWB (s : Session) : Bool :=
  (!(s.status == "booked") || s.caseId.isSome) &&
    (!s.caseId.isSome || (s.status == "booked" || s.status == "completed"))

/-- The maintained invariant over the whole state. -/
def dbInvWB (db : DB) : Bool := db.sessions.all sessInvWB

/-- Primary-key well-formedness of the session table. -/
abbrev sessIdsNodup (db : DB) : Prop :=
  (db.sessions.map (fun s => s.sessionId)).Nodup

/-- Primary-key well-formedness of the case table. -/
abbrev caseIdsNodup (db : DB) : Prop :=
  (db.cases.map (fun c => c.caseId)).Nodup

/-- Every queue token stored in the state is a digit string of length at
least three (the generators only ever write two year characters followed by
at least four digits). -/
def tokensWF (db : DB) : Bool :=
  db.cases.all (fun c =>
    match c.queueToken with
    | some t => t.data.all Char.isDigit && decide (3 ≤ t.data.length)
    | none => true)

/-! ## General lemmas about the query and update primitives -/

theorem find?_map_pres {α : Type} (g : α → α) (p : α → Bool)
    (h : ∀ x, p (g x) = p x) (l : List α) :
    (l.map g).find? p = (l.find? p).map g := by
  induction l with
  | nil => rfl
  | cons a t ih =>
    by_cases hpa : p a = true
    · rw [List.map_cons, List.find?_cons_of_pos _ (by rw [h]; exact hpa),
        List.find?_cons_of_pos _ hpa]
      rfl
    · rw [List.map_cons, List.find?_cons_of_neg _ (by rw [h]; exact hpa),
        List.find?_cons_of_neg _ hpa, ih]

theorem nodupKeyMem {α : Type} (key : α → Nat) (l : List α)
    (hnd : (l.map key).Nodup) {x y : α} (hx : x ∈ l) (hy : y ∈ l)
    (hk : key x = key y) : x = y :=
  List.inj_on_of_nodup_map hnd hx hy hk

/-- In a keyed table with distinct keys, a row of the updated table carrying
the updated key is exactly the update of the row find? located. -/
theorem mem_keyed_update {α : Type} (key : α → Nat) (f : α → α) (l : List α)
    (k : Nat) (hnd : (l.map key).Nodup) (c : α)
    (hfind : l.find? (fun x => key x == k) = some c)
    {x : α} (hx : x ∈ l.map (fun y => if key y == k then f y else y))
    (hxk : key x = k) : x = f c := by
  obtain ⟨y, hy, hyx⟩ := List.mem_map.mp hx
  have hc : c ∈ l := List.mem_of_find?_eq_some hfind
  have hck : key c = k := by simpa using List.find?_some hfind
  by_cases hyk : key y = k
  · have hyc : y = c := nodupKeyMem key l hnd hy hc (by rw [hyk, hck])
    subst hyc
    simpa [hyk] using hyx.symm
  · exfalso
    apply hyk
    have hxy : x = y := by simpa [hyk] using hyx.symm
    rw [← hxy, hxk]

/-- The updated image of the located row is a member of the updated table. -/
theorem keyed_update_mem {α : Type} (key : α → Nat) (f : α → α) (l : List α)
    (k : Nat) (c : α) (hfind : l.find? (fun x => key x == k) = some c) :
    f c ∈ l.map (fun y => if key y == k then f y else y) := by
  have hc : c ∈ l := List.mem_of_find?_eq_some hfind
  have hck : (key c == k) = true := by
    have hp := List.find?_some hfind
    simpa using hp
  have hm := List.mem_map_of_mem (fun y => if key y == k then f y else y) hc
  simpa [hck] using hm

/-- findLatestCase commutes with a row rewrite that preserves the filter
predicate and createdAt. -/
theorem findLatestCase_map (g : Case → Case) (p : Case → Bool)
    (hp : ∀ c, p (g c) = p c) (hc : ∀ c, (g c).createdAt = c.createdAt)
    (l : List Case) :
    findLatestCase (l.map g) p = (findLatestCase l p).map g := by
  unfold findLatestCase
  have hfil : (l.map g).filter p = (l.filter p).map g := by
    have h1 : (l.map g).filter p = (l.filter (p ∘ g)).map g := by
      simpa using List.filter_map g l
    have h2 : p ∘ g = p := funext hp
    rw [h1, h2]
  rw [hfil]
  generalize l.filter p = m
  suffices hgen : ∀ (acc : Option Case),
      (m.map g).foldl
        (fun acc c =>
          match acc with
          | none => some c
          | some mx => if mx.createdAt < c.createdAt then some c else some mx)
        (acc.map g) =
      (m.foldl
        (fun acc c =>
          match acc with
          | none => some c
          | some mx => if mx.createdAt < c.createdAt then some c else some mx)
        acc).map g by
    simpa using hgen none
  induction m with
  | nil => intro acc; rfl
  | cons a t ih =>
    intro acc
    match acc with
    | none => simpa using ih (some a)
    | some mx =>
      by_cases hlt : mx.createdAt < a.createdAt
      · have : ((some mx).map g) = some (g mx) := rfl
        simp only [List.map_cons, List.foldl_cons, this, hc, hlt, if_true]
        simpa using ih (some a)
      · simp only [List.map_cons, List.foldl_cons, Option.map_some', hc, hlt,
          if_false]
        simpa using ih (some mx)

/-! ## Lemmas about the string helpers and token arithmetic -/

theorem decCharsF_small (f n : Nat) (h : n < 10) :
    decCharsF f n = [Nat.digitChar n] := by
  cases f with
  | zero => rfl
  | succ g => simp [decCharsF, h]

theorem decCharsF_stable :
    ∀ (n f g : Nat), n ≤ f → n ≤ g → decCharsF f n = decCharsF g n := by
  intro n
  induction n using Nat.strong_induction_on with
  | _ n ih =>
    intro f g hf hg
    by_cases h10 : n < 10
    · rw [decCharsF_small f n h10, decCharsF_small g n h10]
    · match f, g with
      | 0, _ => omega
      | _ + 1, 0 => omega
      | f' + 1, g' + 1 =>
        simp only [decCharsF, h10, if_false]
        have hdiv : n / 10 < n := Nat.div_lt_self (by omega) (by omega)
        rw [ih (n / 10) hdiv f' g' (by omega) (by omega)]

/-- The recursion equation of the digit rendering. -/
theorem decChars_eq (n : Nat) :
    decChars n =
      if n < 10 then [Nat.digitChar n]
      else decChars (n / 10) ++ [Nat.digitChar (n % 10)] := by
  unfold decChars
  by_cases h10 : n < 10
  · rw [decCharsF_small n n h10, if_pos h10]
  · match hn : n with
    | 0 => omega
    | m + 1 =>
      simp only [decCharsF, h10, if_false]
      have hdiv : (m + 1) / 10 < m + 1 := Nat.div_lt_self (by omega) (by omega)
      rw [decCharsF_stable ((m + 1) / 10) m ((m + 1) / 10) (by omega) (by omega)]

theorem decChars_ne_nil (n : Nat) : decChars n ≠ [] := by
  rw [decChars_eq]
  split
  · simp
  · intro h
    have hlen := congrArg List.length h
    simp [List.length_append] at hlen

theorem one_le_decChars (n : Nat) : 1 ≤ (decChars n).length :=
  List.length_pos.mpr (decChars_ne_nil n)

theorem two_le_decChars {n : Nat} (h : 10 ≤ n) : 2 ≤ (decChars n).length := by
  rw [decChars_eq]
  split
  · omega
  · rw [List.length_append]
    have := one_le_decChars (n / 10)
    simp only [List.length_cons, List.length_nil]
    omega

theorem decChars_len_le : ∀ (k n : Nat), 1 ≤ k → n < 10 ^ k →
    (decChars n).length ≤ k := by
  intro k
  induction k with
  | zero => intro n h; omega
  | succ k ih =>
    intro n _ hn
    rw [decChars_eq]
    split
    · simp
    · rename_i hn10
      rw [List.length_append]
      simp only [List.length_cons, List.length_nil]
      have hk1 : 1 ≤ k := by
        by_contra hk0
        have hk : k = 0 := by omega
        subst hk
        norm_num at hn
        omega
      have hdiv : n / 10 < 10 ^ k := by
        rw [Nat.div_lt_iff_lt_mul (by norm_num)]
        calc n < 10 ^ (k + 1) := hn
          _ = 10 ^ k * 10 := by ring
      have := ih (n / 10) hk1 hdiv
      omega

theorem padStart_data_len (s : String) (n : Nat) (c : Char) :
    (jsPadStart s n c).data.length = max n s.data.length := by
  simp only [jsPadStart, List.length_append, List.length_replicate]
  omega

theorem jsLast2_len {s : String} (h : 2 ≤ s.data.length) :
    (jsLast2 s).data.length = 2 := by
  simp only [jsLast2, List.length_drop]
  omega

theorem ccYearCode_len (clock : Clock) : (ccYearCode clock).data.length = 2 := by
  unfold ccYearCode decStr
  apply jsLast2_len
  apply two_le_decChars
  split <;> omega

theorem p9YearCode_len (clock : Clock) : (p9YearCode clock).data.length = 2 := by
  unfold p9YearCode decStr
  apply jsLast2_len
  apply two_le_decChars
  omega

theorem startsWith_iff_take2 {t p : String} (hp : p.data.length = 2) :
    jsStartsWith t p = true ↔ t.data.take 2 = p.data := by
  rw [jsStartsWith, List.isPrefixOf_iff_prefix, List.prefix_iff_eq_take, hp]
  exact ⟨fun h => h.symm, fun h => h.symm⟩

/-- Every branch of nextTokenStr concatenates a suffix onto the year code. -/
theorem nextTokenStr_shape (p : String) (mx : Option String) :
    ∃ r : String, nextTokenStr p mx = p ++ r := by
  rcases mx with _ | t
  · exact ⟨jsPadStart (decStr 1) 4 '0', rfl⟩
  · rcases hp : jsParseIntD (jsSliceFrom t 2) with _ | n
    · exact ⟨"0NaN", by simp [nextTokenStr, hp]⟩
    · exact ⟨jsPadStart (decStr (n + 1)) 4 '0', by simp [nextTokenStr, hp]⟩

theorem append_data (a b : String) : (a ++ b).data = a.data ++ b.data := rfl

/-- The first two characters of a generated token are the year code. -/
theorem nextTokenStr_take2 (p : String) (mx : Option String)
    (hp : p.data.length = 2) :
    (nextTokenStr p mx).data.take 2 = p.data := by
  obtain ⟨r, hr⟩ := nextTokenStr_shape p mx
  rw [hr, append_data, ← hp, List.take_left]

/-- A generated token is never the empty string. -/
theorem nextTokenStr_ne_empty (p : String) (mx : Option String)
    (hp : p.data.length = 2) : ((nextTokenStr p mx).isEmpty) = false := by
  obtain ⟨r, hr⟩ := nextTokenStr_shape p mx
  have hne : nextTokenStr p mx ≠ "" := by
    intro h
    have hdata : (nextTokenStr p mx).data = [] := by rw [h]
    rw [hr, append_data] at hdata
    have hlen := congrArg List.length hdata
    simp [List.length_append, hp] at hlen
  cases hie : (nextTokenStr p mx).isEmpty
  · rfl
  · exact absurd ((String.isEmpty_iff _).mp hie) hne

/-! ## Lemmas characterizing lastTokenMax as a maximum -/

theorem foldMax_eq_none :
    ∀ (l : List String) (acc : Option String),
      l.foldl maxStep acc = none → l = [] ∧ acc = none := by
  intro l
  induction l with
  | nil => intro acc h; exact ⟨rfl, h⟩
  | cons b t ih =>
    intro acc h
    obtain ⟨_, hstep⟩ := ih (maxStep acc b) h
    exfalso
    rcases acc with _ | x
    · simp [maxStep] at hstep
    · by_cases hlt : x < b <;> simp [maxStep, hlt] at hstep

theorem foldMax_some_spec :
    ∀ (l : List String) (acc : Option String) (m : String),
      l.foldl maxStep acc = some m →
      (m ∈ l ∨ acc = some m) ∧ (∀ t ∈ l, t ≤ m) ∧
        (∀ a, acc = some a → a ≤ m) := by
  intro l
  induction l with
  | nil =>
    intro acc m h
    refine ⟨Or.inr h, by simp, ?_⟩
    intro a ha
    rw [ha] at h
    simp only [List.foldl_nil, Option.some.injEq] at h
    exact le_of_eq h
  | cons b t ih =>
    intro acc m h
    obtain ⟨hmem, hall, hacc⟩ := ih (maxStep acc b) m h
    have hbm : b ≤ m := by
      rcases acc with _ | x
      · exact hacc b rfl
      · by_cases hlt : x < b
        · exact hacc b (by simp [maxStep, hlt])
        · exact le_trans (le_of_not_lt hlt) (hacc x (by simp [maxStep, hlt]))
    refine ⟨?_, ?_, ?_⟩
    · rcases hmem with hm | hstep
      · exact Or.inl (List.mem_cons_of_mem b hm)
      · rcases acc with _ | x
        · simp only [maxStep, Option.some.injEq] at hstep
          exact Or.inl (by rw [← hstep]; exact List.mem_cons_self b t)
        · by_cases hlt : x < b
          · simp only [maxStep, hlt, if_true, Option.some.injEq] at hstep
            exact Or.inl (by rw [← hstep]; exact List.mem_cons_self b t)
          · simp only [maxStep, hlt, if_false, Option.some.injEq] at hstep
            exact Or.inr (by rw [hstep])
    · intro u hu
      rcases List.mem_cons.mp hu with hub | hut
      · rw [hub]; exact hbm
      · exact hall u hut
    · intro a ha
      rcases acc with _ | x
      · simp at ha
      · have hax : x = a := by simpa using ha
        subst hax
        by_cases hlt : x < b
        · exact le_trans (le_of_lt hlt) hbm
        · exact hacc x (by simp [maxStep, hlt])

theorem mem_matchTokens {cs : List Case} {p t : String} :
    t ∈ matchTokens cs p ↔
      ∃ c ∈ cs, c.queueToken = some t ∧ jsStartsWith t p = true := by
  unfold matchTokens
  rw [List.mem_filterMap]
  constructor
  · rintro ⟨c, hc, hf⟩
    rcases hq : c.queueToken with _ | u
    · rw [hq] at hf; simp at hf
    · rw [hq] at hf
      by_cases hs : jsStartsWith u p = true
      · simp only [hs, if_true, Option.some.injEq] at hf
        subst hf
        exact ⟨c, hc, hq, hs⟩
      · simp [hs] at hf
  · rintro ⟨c, hc, hq, hs⟩
    exact ⟨c, hc, by rw [hq]; simp [hs]⟩

/-- When no stored token starts with the year code, the query is empty. -/
theorem lastTokenMax_none {cs : List Case} {p : String}
    (h : lastTokenMax cs p = none) :
    ∀ c ∈ cs, ∀ t, c.queueToken = some t → jsStartsWith t p = false := by
  intro c hc t hq
  obtain ⟨hnil, _⟩ := foldMax_eq_none _ _ h
  by_contra hs
  have hmem : t ∈ matchTokens cs p :=
    mem_matchTokens.mpr ⟨c, hc, hq, by simpa using hs⟩
  rw [hnil] at hmem
  simp at hmem

/-- The query result is a stored matching token that dominates every stored
matching token lexicographically. -/
theorem lastTokenMax_some {cs : List Case} {p m : String}
    (h : lastTokenMax cs p = some m) :
    (∃ c ∈ cs, c.queueToken = some m) ∧ jsStartsWith m p = true ∧
      ∀ c ∈ cs, ∀ t, c.queueToken = some t → jsStartsWith t p = true → t ≤ m := by
  obtain ⟨hmem, hall, _⟩ := foldMax_some_spec _ _ _ h
  have hm : m ∈ matchTokens cs p := by
    rcases hmem with hm | hcontra
    · exact hm
    · simp at hcontra
  obtain ⟨c, hc, hq, hs⟩ := mem_matchTokens.mp hm
  exact ⟨⟨c, hc, hq⟩, hs, fun c' hc' t hq' hs' =>
    hall t (mem_matchTokens.mpr ⟨c', hc', hq', hs'⟩)⟩


theorem isEmpty_false_of_ne {t : String} (h : t ≠ "") : t.isEmpty = false := by
  cases hie : t.isEmpty
  · rfl
  · exact absurd ((String.isEmpty_iff _).mp hie) h

theorem strTruthy_some {t : String} (h : t ≠ "") : strTruthy (some t) = true := by
  simp [strTruthy, isEmpty_false_of_ne h]

/-! ## Run lemmas: how each token generator evaluates on its two paths -/

/-- getOrGenerateQueueToken on a case that already holds a truthy token. -/
theorem getOrGen_ret {db : DB} {caseId : Nat} {clock : Clock} {cc : Case}
    {t : String} (hfind : db.cases.find? (fun c => c.caseId == caseId) = some cc)
    (hq : cc.queueToken = some t) (hne : t ≠ "") :
    getOrGenerateQueueToken db caseId clock = some (db, t) := by
  have htr : strTruthy cc.queueToken = true := by rw [hq]; exact strTruthy_some hne
  have hres : getOrGenerateQueueToken db caseId clock =
      some (db, cc.queueToken.getD "") := by
    simp [getOrGenerateQueueToken, hfind, htr]
  rw [hres, hq]
  rfl

/-- getOrGenerateQueueToken on a case without a truthy token: it computes the
next token for the unadjusted year code and writes it to the case. -/
theorem getOrGen_gen {db : DB} {caseId : Nat} {clock : Clock} {cc : Case}
    (hfind : db.cases.find? (fun c => c.caseId == caseId) = some cc)
    (htr : strTruthy cc.queueToken = false) :
    getOrGenerateQueueToken db caseId clock =
      some
        ({ db with cases := updateCaseIn db.cases caseId (fun c => { c with queueToken := some (nextTokenStr (p9YearCode clock) (lastTokenMax db.cases (p9YearCode clock))) }) },
          nextTokenStr (p9YearCode clock) (lastTokenMax db.cases (p9YearCode clock))) := by
  simp only [getOrGenerateQueueToken, hfind, htr]
  rfl

/-- generateQueueTokenCC returning an existing truthy token. -/
theorem genCC_ret {db : DB} {clientId : String} {priority : Option String}
    {clock : Clock} {cc : Case} {t : String}
    (hfind : findLatestCase db.cases (fun c => c.clientId == clientId && c.status == "waiting_confirmation") = some cc)
    (hq : cc.queueToken = some t) (hne : t ≠ "") :
    generateQueueTokenCC db clientId priority clock = (db, 200, some t) := by
  have htr : strTruthy cc.queueToken = true := by rw [hq]; exact strTruthy_some hne
  have hres : generateQueueTokenCC db clientId priority clock =
      (db, 200, cc.queueToken) := by
    simp [generateQueueTokenCC, hfind, htr]
  rw [hres, hq]

/-- generateQueueTokenCC generating and persisting a fresh token. -/
theorem genCC_gen {db : DB} {clientId : String} {priority : Option String}
    {clock : Clock} {cc : Case}
    (hfind : findLatestCase db.cases (fun c => c.clientId == clientId && c.status == "waiting_confirmation") = some cc)
    (htr : strTruthy cc.queueToken = false) :
    generateQueueTokenCC db clientId priority clock =
      ({ db with cases := updateCaseIn db.cases cc.caseId (fun c => { c with queueToken := some (nextTokenStr (ccYearCode clock) (lastTokenMax db.cases (ccYearCode clock))), priority := jsOrStr priority "medium", waitingEnteredAt := some clock.ms }) },
        200,
        some (nextTokenStr (ccYearCode clock) (lastTokenMax db.cases (ccYearCode clock)))) := by
  simp only [generateQueueTokenCC, hfind, htr]
  rfl

/-! ## Claim C3: academic-year prefix rule -/

/-- Claim C3, counterexample: the queue-token generation path used by
bookSession, on a system date of 2026-05-31 (getMonth() = 4, within
January-May), generates the token 690001, whose two leading characters are
69 and not the 68 the claim requires of every code path that generates a
queue token. -/
theorem C3_counterexample :
    (getOrGenerateQueueToken { cases := [{ caseId := 1, clientId := "c", status := "waiting_confirmation" }] } 1 ⟨0, 2026, 4⟩).map (fun r => r.2) = some "690001" ∧
      "690001".data.take 2 = "69".data ∧ ("69" : String) ≠ "68" := by
  refine ⟨?_, ?_, ?_⟩ <;> decide

/-- Claim C3, amended: the caseController generateQueueToken path derives the
two-character code from the Buddhist year (Gregorian year + 543) with the
January-May decrement, so 2026-05-31 gives 68 and 2026-06-01 gives 69; but
the getOrGenerateQueueToken path used by bookSession omits the decrement and
always uses the plain Buddhist year, so 2026-05-31 gives 69 there. -/
theorem C3_amended :
    (∀ (db : DB) (clientId : String) (priority : Option String) (clock : Clock)
        (cc : Case),
      findLatestCase db.cases (fun c => c.clientId == clientId && c.status == "waiting_confirmation") = some cc →
      strTruthy cc.queueToken = false →
      ∃ (db' : DB) (tok : String),
        generateQueueTokenCC db clientId priority clock = (db', 200, some tok) ∧
          tok.data.take 2 = (jsLast2 (decStr (clock.year + 543 - (if clock.month < 5 then 1 else 0)))).data) ∧
    (∀ (db : DB) (caseId : Nat) (clock : Clock) (cc : Case),
      db.cases.find? (fun c => c.caseId == caseId) = some cc →
      strTruthy cc.queueToken = false →
      ∃ (db' : DB) (tok : String),
        getOrGenerateQueueToken db caseId clock = some (db', tok) ∧
          tok.data.take 2 = (jsLast2 (decStr (clock.year + 543))).data) ∧
    ccYearCode ⟨0, 2026, 4⟩ = "68" ∧ ccYearCode ⟨0, 2026, 5⟩ = "69" ∧
      p9YearCode ⟨0, 2026, 4⟩ = "69" := by
  refine ⟨?_, ?_, by decide, by decide, by decide⟩
  · intro db clientId priority clock cc hfind htr
    exact ⟨_, _, genCC_gen hfind htr,
      nextTokenStr_take2 _ _ (ccYearCode_len clock)⟩
  · intro db caseId clock cc hfind htr
    exact ⟨_, _, getOrGen_gen hfind htr,
      nextTokenStr_take2 _ _ (p9YearCode_len clock)⟩

/-- Witness instantiating the generation paths of C3_amended on concrete
states at the boundary date. -/
theorem C3_amended_witness :
    (∃ (db' : DB) (tok : String),
      generateQueueTokenCC { cases := [{ caseId := 1, clientId := "c", status := "waiting_confirmation" }] } "c" none ⟨0, 2026, 4⟩ = (db', 200, some tok) ∧
        tok.data.take 2 = (jsLast2 (decStr (2026 + 543 - (if (4 : Nat) < 5 then 1 else 0)))).data) ∧
    (∃ (db' : DB) (tok : String),
      getOrGenerateQueueToken { cases := [{ caseId := 1, clientId := "c", status := "waiting_confirmation" }] } 1 ⟨0, 2026, 4⟩ = some (db', tok) ∧
        tok.data.take 2 = (jsLast2 (decStr (2026 + 543))).data) :=
  ⟨C3_amended.1 { cases := [{ caseId := 1, clientId := "c", status := "waiting_confirmation" }] } "c" none ⟨0, 2026, 4⟩ { caseId := 1, clientId := "c", status := "waiting_confirmation" } (by decide) (by decide),
    C3_amended.2.1 { cases := [{ caseId := 1, clientId := "c", status := "waiting_confirmation" }] } 1 ⟨0, 2026, 4⟩ { caseId := 1, clientId := "c", status := "waiting_confirmation" } (by decide) (by decide)⟩

theorem ne_empty_of_isEmpty_false {t : String} (h : t.isEmpty = false) :
    t ≠ "" := by
  intro hh
  rw [hh] at h
  exact absurd h (by decide)

/-- A token produced by nextTokenStr is not the empty string. -/
theorem nextTokenStr_ne (p : String) (mx : Option String)
    (hp : p.data.length = 2) : nextTokenStr p mx ≠ "" :=
  ne_empty_of_isEmpty_false (nextTokenStr_ne_empty p mx hp)

/-! ## Claim C5: idempotent queue-token fetch -/

/-- Claim C5: on a case already holding a (nonempty) queue token, both
get-or-create paths return that token unchanged and perform no write; and on
any case both paths are idempotent across two sequential calls at arbitrary
clock readings: the second call returns the value of the first and leaves
the state produced by the first call untouched. -/
theorem C5_idempotent :
    (∀ (db : DB) (caseId : Nat) (clock : Clock) (cc : Case) (t : String),
      db.cases.find? (fun c => c.caseId == caseId) = some cc →
      cc.queueToken = some t → t ≠ "" →
      getOrGenerateQueueToken db caseId clock = some (db, t)) ∧
    (∀ (db : DB) (clientId : String) (priority : Option String) (clock : Clock)
        (cc : Case) (t : String),
      findLatestCase db.cases (fun c => c.clientId == clientId && c.status == "waiting_confirmation") = some cc →
      cc.queueToken = some t → t ≠ "" →
      generateQueueTokenCC db clientId priority clock = (db, 200, some t)) ∧
    (∀ (db : DB) (caseId : Nat) (clock clock' : Clock) (cc : Case),
      db.cases.find? (fun c => c.caseId == caseId) = some cc →
      ∃ (db1 : DB) (t1 : String),
        getOrGenerateQueueToken db caseId clock = some (db1, t1) ∧
          getOrGenerateQueueToken db1 caseId clock' = some (db1, t1)) ∧
    (∀ (db : DB) (clientId : String) (priority priority' : Option String)
        (clock clock' : Clock) (cc : Case),
      findLatestCase db.cases (fun c => c.clientId == clientId && c.status == "waiting_confirmation") = some cc →
      ∃ (db1 : DB) (t1 : String),
        generateQueueTokenCC db clientId priority clock = (db1, 200, some t1) ∧
          generateQueueTokenCC db1 clientId priority' clock' =
            (db1, 200, some t1)) := by
  refine ⟨fun db caseId clock cc t hfind hq hne => getOrGen_ret hfind hq hne,
    fun db clientId priority clock cc t hfind hq hne => genCC_ret hfind hq hne,
    ?_, ?_⟩
  · intro db caseId clock clock' cc hfind
    by_cases htr : strTruthy cc.queueToken = true
    · rcases hq : cc.queueToken with _ | t
      · rw [hq] at htr; simp [strTruthy] at htr
      · have hne : t ≠ "" := by
          rw [hq] at htr
          simp only [strTruthy, Bool.not_eq_true'] at htr
          exact ne_empty_of_isEmpty_false htr
        exact ⟨db, t, getOrGen_ret hfind hq hne, getOrGen_ret hfind hq hne⟩
    · have htr' : strTruthy cc.queueToken = false := by
        cases h : strTruthy cc.queueToken
        · rfl
        · exact absurd h htr
      set newTok := nextTokenStr (p9YearCode clock)
        (lastTokenMax db.cases (p9YearCode clock)) with hnewTok
      refine ⟨_, newTok, getOrGen_gen hfind htr', ?_⟩
      have hfind1 : (updateCaseIn db.cases caseId (fun c => { c with queueToken := some newTok })).find? (fun c => c.caseId == caseId) = some { cc with queueToken := some newTok } := by
        have hccp : cc.caseId = caseId := by
          have := List.find?_some hfind
          simpa using this
        rw [updateCaseIn, find?_map_pres _ _ ?_ db.cases, hfind]
        · simp [hccp]
        · intro x
          by_cases hx : (x.caseId == caseId) = true <;> simp [hx]
      exact getOrGen_ret hfind1 rfl (nextTokenStr_ne _ _ (p9YearCode_len clock))
  · intro db clientId priority priority' clock clock' cc hfind
    by_cases htr : strTruthy cc.queueToken = true
    · rcases hq : cc.queueToken with _ | t
      · rw [hq] at htr; simp [strTruthy] at htr
      · have hne : t ≠ "" := by
          rw [hq] at htr
          simp only [strTruthy, Bool.not_eq_true'] at htr
          exact ne_empty_of_isEmpty_false htr
        exact ⟨db, t, genCC_ret hfind hq hne, genCC_ret hfind hq hne⟩
    · have htr' : strTruthy cc.queueToken = false := by
        cases h : strTruthy cc.queueToken
        · rfl
        · exact absurd h htr
      set newTok := nextTokenStr (ccYearCode clock)
        (lastTokenMax db.cases (ccYearCode clock)) with hnewTok
      refine ⟨_, newTok, genCC_gen hfind htr', ?_⟩
      have hfind1 : findLatestCase (updateCaseIn db.cases cc.caseId (fun c => { c with queueToken := some newTok, priority := jsOrStr priority "medium", waitingEnteredAt := some clock.ms })) (fun c => c.clientId == clientId && c.status == "waiting_confirmation") = some { cc with queueToken := some newTok, priority := jsOrStr priority "medium", waitingEnteredAt := some clock.ms } := by
        have hcc : (cc.caseId == cc.caseId) = true := by simp
        rw [updateCaseIn, findLatestCase_map _ _ ?_ ?_ db.cases, hfind]
        · simp [hcc]
        · intro x
          by_cases hx : (x.caseId == cc.caseId) = true <;> simp [hx]
        · intro x
          by_cases hx : (x.caseId == cc.caseId) = true <;> simp [hx]
      exact genCC_ret hfind1 rfl (nextTokenStr_ne _ _ (ccYearCode_len clock))

/-- Witness instantiating the return path and the call-twice idempotence of
C5_idempotent on concrete states. -/
theorem C5_idempotent_witness :
    getOrGenerateQueueToken { cases := [{ caseId := 1, clientId := "c", status := "waiting_confirmation", queueToken := some "680001" }] } 1 ⟨0, 2026, 5⟩ = some ({ cases := [{ caseId := 1, clientId := "c", status := "waiting_confirmation", queueToken := some "680001" }] }, "680001") ∧
    (∃ (db1 : DB) (t1 : String),
      generateQueueTokenCC { cases := [{ caseId := 2, clientId := "d", status := "waiting_confirmation" }] } "d" none ⟨0, 2026, 5⟩ = (db1, 200, some t1) ∧
        generateQueueTokenCC db1 "d" none ⟨0, 2026, 6⟩ = (db1, 200, some t1)) :=
  ⟨C5_idempotent.1 { cases := [{ caseId := 1, clientId := "c", status := "waiting_confirmation", queueToken := some "680001" }] } 1 ⟨0, 2026, 5⟩ { caseId := 1, clientId := "c", status := "waiting_confirmation", queueToken := some "680001" } "680001" (by decide) (by decide) (by decide),
    C5_idempotent.2.2.2 { cases := [{ caseId := 2, clientId := "d", status := "waiting_confirmation" }] } "d" none none ⟨0, 2026, 5⟩ ⟨0, 2026, 6⟩ { caseId := 2, clientId := "d", status := "waiting_confirmation" } (by decide)⟩

/-- Unpacking the token well-formedness flag. -/
theorem tokensWF_spec {db : DB} (h : tokensWF db = true) :
    ∀ c ∈ db.cases, ∀ t, c.queueToken = some t →
      t.data.all Char.isDigit = true ∧ 3 ≤ t.data.length := by
  intro c hc t hq
  rw [tokensWF, List.all_eq_true] at h
  have hcase := h c hc
  rw [hq] at hcase
  simpa using hcase

/-- parseInt succeeds on the tail of a stored digit token. -/
theorem parse_of_digits {m : String} (hd : m.data.all Char.isDigit = true)
    (hl : 3 ≤ m.data.length) : ∃ n, jsParseIntD (jsSliceFrom m 2) = some n := by
  cases hdrop : m.data.drop 2 with
  | nil =>
    have hlen := congrArg List.length hdrop
    rw [List.length_drop] at hlen
    simp only [List.length_nil] at hlen
    omega
  | cons a t =>
    have ha : a ∈ m.data :=
      List.drop_subset 2 m.data (hdrop ▸ List.mem_cons_self a t)
    have hdig : Char.isDigit a = true := by
      rw [List.all_eq_true] at hd
      exact hd a ha
    refine ⟨(a :: t.takeWhile Char.isDigit).foldl
      (fun acc c => acc * 10 + (c.toNat - 48)) 0, ?_⟩
    simp [jsParseIntD, jsSliceFrom, hdrop, List.takeWhile_cons, hdig]

/-- The next-token computation satisfies the sequence rule: it extends the
greatest stored matching token's numeric tail by one (zero-padded to four),
or starts at 0001 when no stored token matches, and has six characters
whenever the sequence value fits in four digits. -/
theorem nextToken_prop (cs : List Case) (p : String) (hp : p.data.length = 2)
    (hwf : ∀ c ∈ cs, ∀ t, c.queueToken = some t →
      t.data.all Char.isDigit = true ∧ 3 ≤ t.data.length) :
    (∃ m,
      (∃ c ∈ cs, c.queueToken = some m) ∧ m.data.take 2 = p.data ∧
        (∀ c ∈ cs, ∀ t, c.queueToken = some t → t.data.take 2 = p.data → t ≤ m) ∧
        ∃ n, jsParseIntD (jsSliceFrom m 2) = some n ∧
          nextTokenStr p (lastTokenMax cs p) =
            p ++ jsPadStart (decStr (n + 1)) 4 '0' ∧
          (n + 1 ≤ 9999 →
            (nextTokenStr p (lastTokenMax cs p)).data.length = 6)) ∨
    ((∀ c ∈ cs, ∀ t, c.queueToken = some t → ¬ t.data.take 2 = p.data) ∧
      nextTokenStr p (lastTokenMax cs p) = p ++ "0001" ∧
      (nextTokenStr p (lastTokenMax cs p)).data.length = 6) := by
  rcases hmx : lastTokenMax cs p with _ | m
  · right
    have hnone := lastTokenMax_none hmx
    refine ⟨?_, ?_, ?_⟩
    · intro c hc t hq ht2
      have := hnone c hc t hq
      rw [(startsWith_iff_take2 hp).mpr ht2] at this
      exact absurd this (by decide)
    · show p ++ jsPadStart (decStr 1) 4 '0' = p ++ "0001"
      rw [show jsPadStart (decStr 1) 4 '0' = "0001" by decide]
    · show (p ++ jsPadStart (decStr 1) 4 '0').data.length = 6
      rw [show jsPadStart (decStr 1) 4 '0' = "0001" by decide, append_data,
        List.length_append, hp]
      decide
  · left
    obtain ⟨⟨c, hc, hq⟩, hsw, hdom⟩ := lastTokenMax_some hmx
    obtain ⟨hdig, hlen3⟩ := hwf c hc m hq
    obtain ⟨n, hn⟩ := parse_of_digits hdig hlen3
    refine ⟨m, ⟨c, hc, hq⟩, (startsWith_iff_take2 hp).mp hsw, ?_, n, hn, ?_, ?_⟩
    · intro c' hc' t hq' ht2
      exact hdom c' hc' t hq' ((startsWith_iff_take2 hp).mpr ht2)
    · simp [nextTokenStr, hn]
    · intro hle
      have htok : nextTokenStr p (some m) = p ++ jsPadStart (decStr (n + 1)) 4 '0' := by
        simp [nextTokenStr, hn]
      rw [htok, append_data, List.length_append, hp, padStart_data_len]
      have hbound : (decChars (n + 1)).length ≤ 4 := by
        apply decChars_len_le 4 (n + 1) (by norm_num)
        norm_num
        omega
      have : (decStr (n + 1)).data.length = (decChars (n + 1)).length := rfl
      omega

/-! ## Claim C4: queue-token sequence rule -/

/-- Claim C4, counterexample: with greatest stored token 689999, the next
generated token is 6810000 (padStart never truncates), which is seven
characters, not the claimed universal six. -/
theorem C4_counterexample :
    (getOrGenerateQueueToken { cases := [{ caseId := 1, clientId := "c", status := "waiting_confirmation" }, { caseId := 2, clientId := "d", status := "booked", queueToken := some "689999" }] } 1 ⟨0, 2025, 6⟩).map (fun r => r.2) = some "6810000" ∧
      "6810000".data.length ≠ 6 := by
  constructor <;> decide

/-- Claim C4, amended: on a case with no queue token, both generators
produce prefix ++ zero-padded (n + 1), where n is the integer parse of the
trailing digits of the lexicographically greatest stored token whose first
two characters equal the generator's prefix, or prefix ++ 0001 when no such
token exists; the total length is six characters whenever the new sequence
value is at most 9999 (zero-padding never truncates a longer value). -/
theorem C4_amended :
    (∀ (db : DB) (clientId : String) (priority : Option String) (clock : Clock)
        (cc : Case),
      findLatestCase db.cases (fun c => c.clientId == clientId && c.status == "waiting_confirmation") = some cc →
      strTruthy cc.queueToken = false →
      tokensWF db = true →
      ∃ (db' : DB) (tok : String),
        generateQueueTokenCC db clientId priority clock = (db', 200, some tok) ∧
          ((∃ m,
            (∃ c ∈ db.cases, c.queueToken = some m) ∧
              m.data.take 2 = (ccYearCode clock).data ∧
              (∀ c ∈ db.cases, ∀ t, c.queueToken = some t →
                t.data.take 2 = (ccYearCode clock).data → t ≤ m) ∧
              ∃ n, jsParseIntD (jsSliceFrom m 2) = some n ∧
                tok = ccYearCode clock ++ jsPadStart (decStr (n + 1)) 4 '0' ∧
                (n + 1 ≤ 9999 → tok.data.length = 6)) ∨
          ((∀ c ∈ db.cases, ∀ t, c.queueToken = some t →
              ¬ t.data.take 2 = (ccYearCode clock).data) ∧
            tok = ccYearCode clock ++ "0001" ∧ tok.data.length = 6))) ∧
    (∀ (db : DB) (caseId : Nat) (clock : Clock) (cc : Case),
      db.cases.find? (fun c => c.caseId == caseId) = some cc →
      strTruthy cc.queueToken = false →
      tokensWF db = true →
      ∃ (db' : DB) (tok : String),
        getOrGenerateQueueToken db caseId clock = some (db', tok) ∧
          ((∃ m,
            (∃ c ∈ db.cases, c.queueToken = some m) ∧
              m.data.take 2 = (p9YearCode clock).data ∧
              (∀ c ∈ db.cases, ∀ t, c.queueToken = some t →
                t.data.take 2 = (p9YearCode clock).data → t ≤ m) ∧
              ∃ n, jsParseIntD (jsSliceFrom m 2) = some n ∧
                tok = p9YearCode clock ++ jsPadStart (decStr (n + 1)) 4 '0' ∧
                (n + 1 ≤ 9999 → tok.data.length = 6)) ∨
          ((∀ c ∈ db.cases, ∀ t, c.queueToken = some t →
              ¬ t.data.take 2 = (p9YearCode clock).data) ∧
            tok = p9YearCode clock ++ "0001" ∧ tok.data.length = 6))) := by
  constructor
  · intro db clientId priority clock cc hfind htr hwf
    exact ⟨_, _, genCC_gen hfind htr,
      nextToken_prop db.cases (ccYearCode clock) (ccYearCode_len clock)
        (tokensWF_spec hwf)⟩
  · intro db caseId clock cc hfind htr hwf
    exact ⟨_, _, getOrGen_gen hfind htr,
      nextToken_prop db.cases (p9YearCode clock) (p9YearCode_len clock)
        (tokensWF_spec hwf)⟩

/-- Witness instantiating both generation paths of C4_amended on a concrete
state with one stored token. -/
theorem C4_amended_witness :
    ∃ (db' : DB) (tok : String),
      getOrGenerateQueueToken { cases := [{ caseId := 1, clientId := "c", status := "waiting_confirmation" }, { caseId := 2, clientId := "d", status := "booked", queueToken := some "690004" }] } 1 ⟨0, 2026, 5⟩ = some (db', tok) ∧
        ((∃ m,
          (∃ c ∈ ({ cases := [{ caseId := 1, clientId := "c", status := "waiting_confirmation" }, { caseId := 2, clientId := "d", status := "booked", queueToken := some "690004" }] } : DB).cases, c.queueToken = some m) ∧
            m.data.take 2 = (p9YearCode ⟨0, 2026, 5⟩).data ∧
            (∀ c ∈ ({ cases := [{ caseId := 1, clientId := "c", status := "waiting_confirmation" }, { caseId := 2, clientId := "d", status := "booked", queueToken := some "690004" }] } : DB).cases, ∀ t, c.queueToken = some t →
              t.data.take 2 = (p9YearCode ⟨0, 2026, 5⟩).data → t ≤ m) ∧
            ∃ n, jsParseIntD (jsSliceFrom m 2) = some n ∧
              tok = p9YearCode ⟨0, 2026, 5⟩ ++ jsPadStart (decStr (n + 1)) 4 '0' ∧
              (n + 1 ≤ 9999 → tok.data.length = 6)) ∨
        ((∀ c ∈ ({ cases := [{ caseId := 1, clientId := "c", status := "waiting_confirmation" }, { caseId := 2, clientId := "d", status := "booked", queueToken := some "690004" }] } : DB).cases, ∀ t, c.queueToken = some t →
            ¬ t.data.take 2 = (p9YearCode ⟨0, 2026, 5⟩).data) ∧
          tok = p9YearCode ⟨0, 2026, 5⟩ ++ "0001" ∧ tok.data.length = 6)) :=
  C4_amended.2 { cases := [{ caseId := 1, clientId := "c", status := "waiting_confirmation" }, { caseId := 2, clientId := "d", status := "booked", queueToken := some "690004" }] } 1 ⟨0, 2026, 5⟩ { caseId := 1, clientId := "c", status := "waiting_confirmation" } (by decide) (by decide) (by decide)

/-! ## Claim C8: confirmedAt stamping -/

/-- Claim C8, counterexample: a case whose confirmedAt is already set to
1000 is transitioned to confirmed again at time 2000, and the stored
confirmedAt is overwritten to 2000 instead of being left unchanged. -/
theorem C8_counterexample :
    ((updateAppointmentStatus { cases := [{ caseId := 1, clientId := "x", status := "booked", confirmedAt := some 1000 }] } 1 "confirmed" none 7 2000).1.cases.map (fun c => c.confirmedAt)) = [some 2000] ∧
      some (2000 : Int) ≠ some (1000 : Int) := by
  constructor <;> decide

/-- Claim C8, amended: transitioning a case to confirmed always stamps
confirmedAt with the current time, overwriting any previously stored value;
transitions to the other allowed statuses write the previous value back
unchanged. -/
theorem C8_amended (db : DB) (caseId : Nat) (rawStatus : String)
    (reason : Option String) (counselorId : Nat) (now : Int) (cc : Case)
    (hid : caseId ≠ 0) (hraw : (jsTrim rawStatus).isEmpty = false)
    (hallow : normalizeStatus rawStatus = "confirmed" ∨
      normalizeStatus rawStatus = "rescheduled" ∨
      normalizeStatus rawStatus = "cancelled")
    (hfind : db.cases.find? (fun c => c.caseId == caseId) = some cc)
    (hforb : (match cc.counselorId with
      | some k => k != 0 && k != counselorId
      | none => false) = false)
    (hnd : caseIdsNodup db) :
    ∀ c ∈ (updateAppointmentStatus db caseId rawStatus reason counselorId
        now).1.cases,
      c.caseId = caseId →
      c.confirmedAt =
        (if normalizeStatus rawStatus = "confirmed" then some now
          else cc.confirmedAt) := by
  intro c hc hck
  have hres : (updateAppointmentStatus db caseId rawStatus reason counselorId
      now).1.cases =
      updateCaseIn db.cases caseId (fun c =>
        { c with
            status := normalizeStatus rawStatus,
            counselorId := some
              (match c.counselorId with
                | some k => if k ≠ 0 then k else counselorId
                | none => counselorId),
            confirmedAt :=
              if normalizeStatus rawStatus = "confirmed" then some now
              else c.confirmedAt }) := by
    simp only [updateAppointmentStatus, if_neg hid, hraw, Bool.false_eq_true,
      if_false, if_neg (not_not_intro hallow), hfind, hforb]
  rw [hres] at hc
  have hnd' : (List.map (fun c : Case => c.caseId) db.cases).Nodup := hnd
  have hcu := mem_keyed_update (fun c : Case => c.caseId) _ db.cases caseId hnd'
    cc hfind hc hck
  rw [hcu]

/-- Witness applying C8_amended to a concrete rescheduling, where the
previous confirmedAt must be preserved. -/
theorem C8_amended_witness :
    ({ caseId := 1, clientId := "x", counselorId := some 7, status := "rescheduled", confirmedAt := some 1000 } : Case).confirmedAt =
      (if normalizeStatus "rescheduled" = "confirmed" then some 2000
        else some 1000) :=
  C8_amended { cases := [{ caseId := 1, clientId := "x", status := "booked", confirmedAt := some 1000 }] } 1 "rescheduled" none 7 2000 { caseId := 1, clientId := "x", status := "booked", confirmedAt := some 1000 } (by decide) (by decide) (by decide) (by decide) (by decide) (by decide) { caseId := 1, clientId := "x", counselorId := some 7, status := "rescheduled", confirmedAt := some 1000 } (by decide) (by decide)

/-! ## Run lemmas for the two client cancellation operations -/

/-- cancelBooking past the ownership checks: the lead-time gate decides
between the policy rejection and the cancel transaction. -/
theorem cancelBooking_run {db : DB} {sessionId : Nat} {clientId : String}
    (now : Int) {s : Session} {cid : Nat} {kase : Case} {t : Int}
    (hsid : sessionId ≠ 0)
    (hfind : db.sessions.find? (fun x => x.sessionId == sessionId) = some s)
    (hcase : s.caseId = some cid)
    (hkfind : db.cases.find? (fun c => c.caseId == cid) = some kase)
    (hown : kase.clientId = clientId)
    (hts : s.timeStart = some t) :
    cancelBooking db sessionId clientId now =
      if t - now < 86400000 then
        (db, ⟨400, "Cannot cancel bookings less than 24 hours before the session"⟩)
      else
        ({ db with cases := updateCaseIn db.cases kase.caseId (fun c => { c with status := "cancelled" }), sessions := updateSessionIn db.sessions sessionId (fun x => { x with status := "available", caseId := none }) },
          ⟨200, "Booking cancelled successfully"⟩) := by
  simp only [cancelBooking, if_neg hsid, hfind, hcase, Option.some_bind, hkfind,
    hown, ne_eq, not_true_eq_false, if_false, hts]

/-- cancelClientSession past the ownership checks: it always succeeds,
releases the session, clears the booking fields and appends one
CLIENT_CANCELLED record; the case row is untouched and no lead time is
checked. -/
theorem cancelClientSession_run {db : DB} (userId : Nat) {clientId : String}
    {sessionId : Nat} {s : Session} {cid : Nat} {kase : Case}
    (hsid : sessionId ≠ 0)
    (hfind : db.sessions.find? (fun x => x.sessionId == sessionId) = some s)
    (hcase : s.caseId = some cid) (hcid : cid ≠ 0)
    (hkfind : db.cases.find? (fun c => c.caseId == cid) = some kase)
    (hown : kase.clientId = clientId) :
    cancelClientSession db userId clientId sessionId =
      ({ db with sessions := updateSessionIn db.sessions sessionId (fun x => { x with status := "available", caseId := none, sessionName := none, counselorKeyword := none, counselorNote := none, counselorFollowup := none, moodScale := none, tagIds := [] }), histories := db.histories ++ [⟨sessionId, "CLIENT_CANCELLED", "cancelled by client", userId⟩] },
        ⟨200, ""⟩) := by
  have howned : (match s.caseId with
      | none => false
      | some cid =>
        if cid = 0 then false
        else
          match db.cases.find? (fun c => c.caseId == cid) with
          | some k => k.clientId == clientId
          | none => false) = true := by
    rw [hcase]
    simp only [if_neg hcid, hkfind, hown]
    simp
  simp only [cancelClientSession, if_neg hsid, hfind, howned, if_true]

/-! ## Claim C2: cancellation postcondition -/

/-- Claim C2, counterexample: a successful client cancellation through
cancelBooking appends no audit record at all, contradicting the
exactly-one-new-audit-record requirement. -/
theorem C2_counterexample :
    (cancelBooking { sessions := [{ sessionId := 1, status := "booked", caseId := some 1, timeStart := some 86400000 }], cases := [{ caseId := 1, clientId := "x", status := "booked" }] } 1 "x" 0).2 = ⟨200, "Booking cancelled successfully"⟩ ∧
      (cancelBooking { sessions := [{ sessionId := 1, status := "booked", caseId := some 1, timeStart := some 86400000 }], cases := [{ caseId := 1, clientId := "x", status := "booked" }] } 1 "x" 0).1.histories = [] := by
  constructor <;> decide

/-- Claim C2, amended: a successful cancelBooking leaves the session
available with a null case reference and the case cancelled, but appends no
audit record; a successful cancelClientSession leaves the session available
with a null case reference and appends exactly one CLIENT_CANCELLED audit
record, but leaves the case's status untouched. Neither cancellation path
does all three. -/
theorem C2_amended :
    (∀ (db : DB) (sessionId : Nat) (clientId : String) (now : Int)
        (s : Session) (cid : Nat) (kase : Case) (t : Int),
      sessionId ≠ 0 →
      db.sessions.find? (fun x => x.sessionId == sessionId) = some s →
      s.caseId = some cid →
      db.cases.find? (fun c => c.caseId == cid) = some kase →
      kase.clientId = clientId →
      s.timeStart = some t →
      ¬ (t - now < 86400000) →
      sessIdsNodup db → caseIdsNodup db →
      ∃ db' : DB,
        cancelBooking db sessionId clientId now =
          (db', ⟨200, "Booking cancelled successfully"⟩) ∧
        (∀ x ∈ db'.sessions, x.sessionId = sessionId →
          x.status = "available" ∧ x.caseId = none) ∧
        (∀ c ∈ db'.cases, c.caseId = kase.caseId → c.status = "cancelled") ∧
        db'.histories = db.histories) ∧
    (∀ (db : DB) (userId : Nat) (clientId : String) (sessionId : Nat)
        (s : Session) (cid : Nat) (kase : Case),
      sessionId ≠ 0 →
      db.sessions.find? (fun x => x.sessionId == sessionId) = some s →
      s.caseId = some cid → cid ≠ 0 →
      db.cases.find? (fun c => c.caseId == cid) = some kase →
      kase.clientId = clientId →
      sessIdsNodup db →
      ∃ db' : DB,
        cancelClientSession db userId clientId sessionId = (db', ⟨200, ""⟩) ∧
        (∀ x ∈ db'.sessions, x.sessionId = sessionId →
          x.status = "available" ∧ x.caseId = none) ∧
        db'.cases = db.cases ∧
        db'.histories = db.histories ++
          [⟨sessionId, "CLIENT_CANCELLED", "cancelled by client", userId⟩]) := by
  constructor
  · intro db sessionId clientId now s cid kase t hsid hfind hcase hkfind hown
      hts hlead hsnd hcnd
    have hrun := cancelBooking_run now hsid hfind hcase hkfind hown hts
    rw [if_neg hlead] at hrun
    refine ⟨_, hrun, ?_, ?_, rfl⟩
    · intro x hx hxk
      have hsnd' : (List.map (fun y : Session => y.sessionId) db.sessions).Nodup :=
        hsnd
      have hxu := mem_keyed_update (fun y : Session => y.sessionId) _ db.sessions
        sessionId hsnd' s hfind hx hxk
      rw [hxu]
      exact ⟨rfl, rfl⟩
    · intro c hc hck
      have hkid : kase.caseId = cid := by
        have := List.find?_some hkfind
        simpa using this
      have hcnd' : (List.map (fun y : Case => y.caseId) db.cases).Nodup := hcnd
      rw [hkid] at hc
      have hcu := mem_keyed_update (fun y : Case => y.caseId) _ db.cases cid
        hcnd' kase hkfind hc (by show c.caseId = cid; rw [hck, hkid])
      rw [hcu]
  · intro db userId clientId sessionId s cid kase hsid hfind hcase hcid hkfind
      hown hsnd
    have hrun := cancelClientSession_run userId hsid hfind hcase hcid hkfind hown
    refine ⟨_, hrun, ?_, rfl, rfl⟩
    intro x hx hxk
    have hsnd' : (List.map (fun y : Session => y.sessionId) db.sessions).Nodup :=
      hsnd
    have hxu := mem_keyed_update (fun y : Session => y.sessionId) _ db.sessions
      sessionId hsnd' s hfind hx hxk
    rw [hxu]
    exact ⟨rfl, rfl⟩

/-- Witness applying both halves of C2_amended to concrete bookings. -/
theorem C2_amended_witness :
    (∃ db' : DB,
      cancelBooking { sessions := [{ sessionId := 1, status := "booked", caseId := some 1, timeStart := some 86400000 }], cases := [{ caseId := 1, clientId := "x", status := "booked" }] } 1 "x" 0 = (db', ⟨200, "Booking cancelled successfully"⟩) ∧
      (∀ x ∈ db'.sessions, x.sessionId = 1 → x.status = "available" ∧ x.caseId = none) ∧
      (∀ c ∈ db'.cases, c.caseId = ({ caseId := 1, clientId := "x", status := "booked" } : Case).caseId → c.status = "cancelled") ∧
      db'.histories = ({ sessions := [{ sessionId := 1, status := "booked", caseId := some 1, timeStart := some 86400000 }], cases := [{ caseId := 1, clientId := "x", status := "booked" }] } : DB).histories) ∧
    (∃ db' : DB,
      cancelClientSession { sessions := [{ sessionId := 1, status := "booked", caseId := some 1, timeStart := some 3600000 }], cases := [{ caseId := 1, clientId := "x", status := "booked" }] } 9 "x" 1 = (db', ⟨200, ""⟩) ∧
      (∀ x ∈ db'.sessions, x.sessionId = 1 → x.status = "available" ∧ x.caseId = none) ∧
      db'.cases = ({ sessions := [{ sessionId := 1, status := "booked", caseId := some 1, timeStart := some 3600000 }], cases := [{ caseId := 1, clientId := "x", status := "booked" }] } : DB).cases ∧
      db'.histories = ({ sessions := [{ sessionId := 1, status := "booked", caseId := some 1, timeStart := some 3600000 }], cases := [{ caseId := 1, clientId := "x", status := "booked" }] } : DB).histories ++ [⟨1, "CLIENT_CANCELLED", "cancelled by client", 9⟩]) :=
  ⟨C2_amended.1 { sessions := [{ sessionId := 1, status := "booked", caseId := some 1, timeStart := some 86400000 }], cases := [{ caseId := 1, clientId := "x", status := "booked" }] } 1 "x" 0 { sessionId := 1, status := "booked", caseId := some 1, timeStart := some 86400000 } 1 { caseId := 1, clientId := "x", status := "booked" } 86400000 (by decide) (by decide) (by decide) (by decide) (by decide) (by decide) (by decide) (by decide) (by decide),
    C2_amended.2 { sessions := [{ sessionId := 1, status := "booked", caseId := some 1, timeStart := some 3600000 }], cases := [{ caseId := 1, clientId := "x", status := "booked" }] } 9 "x" 1 { sessionId := 1, status := "booked", caseId := some 1, timeStart := some 3600000 } 1 { caseId := 1, clientId := "x", status := "booked" } (by decide) (by decide) (by decide) (by decide) (by decide) (by decide) (by decide)⟩

/-! ## Claim C7: 24-hour cancellation lead time -/

/-- Claim C7, counterexample: a client cancellation through
cancelClientSession of a session starting one hour from now succeeds and
mutates the state, although the claim requires every client cancellation
under 24 hours to be rejected with the lead-time error and to change
nothing. -/
theorem C7_counterexample :
    (cancelClientSession { sessions := [{ sessionId := 1, status := "booked", caseId := some 1, timeStart := some 3600000 }], cases := [{ caseId := 1, clientId := "x", status := "booked" }] } 9 "x" 1).2 = ⟨200, ""⟩ ∧
      ((cancelClientSession { sessions := [{ sessionId := 1, status := "booked", caseId := some 1, timeStart := some 3600000 }], cases := [{ caseId := 1, clientId := "x", status := "booked" }] } 9 "x" 1).1.sessions.map (fun s => s.status)) = ["available"] ∧
      (3600000 : Int) - 0 < 86400000 := by
  refine ⟨?_, ?_, ?_⟩ <;> decide

/-- Claim C7, amended: cancelBooking enforces the 24-hour rule with a strict
less-than comparison, rejecting with the lead-time message and leaving the
state unchanged below 24 hours and passing the check at exactly 24 hours or
more; cancelClientSession, the other client-facing cancellation, applies no
lead-time restriction and succeeds regardless of the session's start
time. -/
theorem C7_amended :
    (∀ (db : DB) (sessionId : Nat) (clientId : String) (now : Int)
        (s : Session) (cid : Nat) (kase : Case) (t : Int),
      sessionId ≠ 0 →
      db.sessions.find? (fun x => x.sessionId == sessionId) = some s →
      s.caseId = some cid →
      db.cases.find? (fun c => c.caseId == cid) = some kase →
      kase.clientId = clientId →
      s.timeStart = some t →
      t - now < 86400000 →
      cancelBooking db sessionId clientId now =
        (db, ⟨400, "Cannot cancel bookings less than 24 hours before the session"⟩)) ∧
    (∀ (db : DB) (sessionId : Nat) (clientId : String) (now : Int)
        (s : Session) (cid : Nat) (kase : Case) (t : Int),
      sessionId ≠ 0 →
      db.sessions.find? (fun x => x.sessionId == sessionId) = some s →
      s.caseId = some cid →
      db.cases.find? (fun c => c.caseId == cid) = some kase →
      kase.clientId = clientId →
      s.timeStart = some t →
      86400000 ≤ t - now →
      (cancelBooking db sessionId clientId now).2 =
        ⟨200, "Booking cancelled successfully"⟩) ∧
    (∀ (db : DB) (userId : Nat) (clientId : String) (sessionId : Nat)
        (s : Session) (cid : Nat) (kase : Case),
      sessionId ≠ 0 →
      db.sessions.find? (fun x => x.sessionId == sessionId) = some s →
      s.caseId = some cid → cid ≠ 0 →
      db.cases.find? (fun c => c.caseId == cid) = some kase →
      kase.clientId = clientId →
      (cancelClientSession db userId clientId sessionId).2 = ⟨200, ""⟩) := by
  refine ⟨?_, ?_, ?_⟩
  · intro db sessionId clientId now s cid kase t hsid hfind hcase hkfind hown
      hts hlt
    have hrun := cancelBooking_run now hsid hfind hcase hkfind hown hts
    rw [if_pos hlt] at hrun
    exact hrun
  · intro db sessionId clientId now s cid kase t hsid hfind hcase hkfind hown
      hts hge
    have hrun := cancelBooking_run now hsid hfind hcase hkfind hown hts
    rw [if_neg (by omega)] at hrun
    rw [hrun]
  · intro db userId clientId sessionId s cid kase hsid hfind hcase hcid hkfind
      hown
    rw [cancelClientSession_run userId hsid hfind hcase hcid hkfind hown]

/-- Witness exercising C7_amended at the 23h59m rejection boundary, the
exact 24h pass boundary, and a one-hour-away cancelClientSession. -/
theorem C7_amended_witness :
    cancelBooking { sessions := [{ sessionId := 1, status := "booked", caseId := some 1, timeStart := some 86340000 }], cases := [{ caseId := 1, clientId := "x", status := "booked" }] } 1 "x" 0 = ({ sessions := [{ sessionId := 1, status := "booked", caseId := some 1, timeStart := some 86340000 }], cases := [{ caseId := 1, clientId := "x", status := "booked" }] }, ⟨400, "Cannot cancel bookings less than 24 hours before the session"⟩) ∧
      (cancelBooking { sessions := [{ sessionId := 1, status := "booked", caseId := some 1, timeStart := some 86400000 }], cases := [{ caseId := 1, clientId := "x", status := "booked" }] } 1 "x" 0).2 = ⟨200, "Booking cancelled successfully"⟩ ∧
      (cancelClientSession { sessions := [{ sessionId := 1, status := "booked", caseId := some 1, timeStart := some 3600000 }], cases := [{ caseId := 1, clientId := "x", status := "booked" }] } 9 "x" 1).2 = ⟨200, ""⟩ :=
  ⟨C7_amended.1 { sessions := [{ sessionId := 1, status := "booked", caseId := some 1, timeStart := some 86340000 }], cases := [{ caseId := 1, clientId := "x", status := "booked" }] } 1 "x" 0 { sessionId := 1, status := "booked", caseId := some 1, timeStart := some 86340000 } 1 { caseId := 1, clientId := "x", status := "booked" } 86340000 (by decide) (by decide) (by decide) (by decide) (by decide) (by decide) (by decide),
    C7_amended.2.1 { sessions := [{ sessionId := 1, status := "booked", caseId := some 1, timeStart := some 86400000 }], cases := [{ caseId := 1, clientId := "x", status := "booked" }] } 1 "x" 0 { sessionId := 1, status := "booked", caseId := some 1, timeStart := some 86400000 } 1 { caseId := 1, clientId := "x", status := "booked" } 86400000 (by decide) (by decide) (by decide) (by decide) (by decide) (by decide) (by decide),
    C7_amended.2.2 { sessions := [{ sessionId := 1, status := "booked", caseId := some 1, timeStart := some 3600000 }], cases := [{ caseId := 1, clientId := "x", status := "booked" }] } 9 "x" 1 { sessionId := 1, status := "booked", caseId := some 1, timeStart := some 3600000 } 1 { caseId := 1, clientId := "x", status := "booked" } (by decide) (by decide) (by decide) (by decide) (by decide) (by decide)⟩

/-! ## Frame lemmas for the bookSession pipeline -/

/-- Queue-token generation touches only the case table. -/
theorem getOrGen_frame {db : DB} {cid : Nat} {ck : Clock} {db' : DB}
    {t : String} (h : getOrGenerateQueueToken db cid ck = some (db', t)) :
    db'.sessions = db.sessions ∧ db'.clients = db.clients ∧
      db'.users = db.users ∧ db'.histories = db.histories ∧
      db'.nextCaseId = db.nextCaseId := by
  rcases hf : db.cases.find? (fun c => c.caseId == cid) with _ | cc
  · simp [getOrGenerateQueueToken, hf] at h
  · by_cases htr : strTruthy cc.queueToken = true
    · rcases hq : cc.queueToken with _ | t0
      · rw [hq] at htr
        simp [strTruthy] at htr
      · have hne : t0 ≠ "" := by
          rw [hq] at htr
          simp only [strTruthy, Bool.not_eq_true'] at htr
          exact ne_empty_of_isEmpty_false htr
        rw [getOrGen_ret hf hq hne] at h
        obtain ⟨h1, _⟩ : db = db' ∧ t0 = t := by simpa using h
        rw [← h1]
        exact ⟨rfl, rfl, rfl, rfl, rfl⟩
    · have htrf : strTruthy cc.queueToken = false := by
        cases hx : strTruthy cc.queueToken
        · rfl
        · exact absurd hx htr
      rw [getOrGen_gen hf htrf] at h
      obtain ⟨h1, _⟩ := by simpa using h
      rw [← h1]
      exact ⟨rfl, rfl, rfl, rfl, rfl⟩

/-- The phone write touches only the user table. -/
theorem bookSessionPhone_frame (db : DB) (userId : Nat) (user : User)
    (phone : String) :
    (bookSessionPhone db userId user phone).clients = db.clients ∧
      (bookSessionPhone db userId user phone).cases = db.cases ∧
      (bookSessionPhone db userId user phone).sessions = db.sessions ∧
      (bookSessionPhone db userId user phone).histories = db.histories ∧
      (bookSessionPhone db userId user phone).nextCaseId = db.nextCaseId := by
  unfold bookSessionPhone
  split <;> exact ⟨rfl, rfl, rfl, rfl, rfl⟩

/-- The booking transaction never writes the client table. -/
theorem bookSessionTx_clients (db2 : DB) (userId latestCaseId : Nat)
    (req : BookReq) (clock : Clock) :
    ((bookSessionTx db2 userId latestCaseId req clock).1).clients =
      db2.clients := by
  unfold bookSessionTx
  split
  · rfl
  · split
    · rfl
    · split
      · rfl
      · rename_i db3 caseToken heq
        have hfr := (getOrGen_frame heq).2.1
        dsimp only
        split
        · exact hfr
        · exact hfr

/-- The settled-profile continuation never writes the client table. -/
theorem bookSessionGo_clients (db : DB) (userId : Nat) (user : User)
    (client : Client) (req : BookReq) (clock : Clock) :
    ((bookSessionGo db userId user client req clock).1).clients =
      db.clients := by
  unfold bookSessionGo
  have hph := (bookSessionPhone_frame db userId user req.phone).1
  dsimp only
  split
  · rw [bookSessionTx_clients]
    exact hph
  · rw [bookSessionTx_clients]
    exact hph

/-! ## Claim C10: client-profile handling in bookSession -/

/-- Claim C10: when the authenticated user has no client profile, bookSession
creates one whose clientId is the submitted nine-digit studentId before
reserving (the created row is present in the final state whatever the
reservation outcome); when a profile exists under a different clientId, the
request is rejected with 400 and the state is untouched, before any
reservation is attempted. -/
theorem C10_profile :
    (∀ (db : DB) (userId : Nat) (req : BookReq) (clock : Clock) (user : User),
      isDigits9 req.studentId = true →
      isDigits10 req.phone = true →
      db.users.find? (fun u => u.userId == userId) = some user →
      db.clients.find? (fun c => c.userId == userId) = none →
      (⟨userId, req.studentId⟩ : Client) ∈
        ((bookSession db userId req clock).1).clients) ∧
    (∀ (db : DB) (userId : Nat) (req : BookReq) (clock : Clock) (user : User)
        (cl : Client),
      isDigits9 req.studentId = true →
      isDigits10 req.phone = true →
      db.users.find? (fun u => u.userId == userId) = some user →
      db.clients.find? (fun c => c.userId == userId) = some cl →
      cl.clientId ≠ req.studentId →
      bookSession db userId req clock =
        (db, ⟨400, "studentId does not match your client profile"⟩)) := by
  constructor
  · intro db userId req clock user h9 h10 husers hclients
    simp only [bookSession, h9, h10, not_true_eq_false, if_false, husers,
      hclients]
    rw [bookSessionGo_clients]
    simp
  · intro db userId req clock user cl h9 h10 husers hclients hne
    simp only [bookSession, h9, h10, not_true_eq_false, if_false, husers,
      hclients, ne_eq, hne, not_false_eq_true, if_true]

/-- Witness for C10_profile: a profile-less user books and the created
profile row exists afterwards; a mismatched studentId is rejected with the
state unchanged. -/
theorem C10_profile_witness :
    ((⟨5, "650000001"⟩ : Client) ∈
      ((bookSession { users := [{ userId := 5 }], sessions := [{ sessionId := 1, timeStart := some 1000 }] } 5 ⟨1, "650000001", "0812345678", none⟩ ⟨0, 2026, 5⟩).1).clients) ∧
    bookSession { users := [{ userId := 5 }], clients := [⟨5, "650000009"⟩], sessions := [{ sessionId := 1, timeStart := some 1000 }] } 5 ⟨1, "650000001", "0812345678", none⟩ ⟨0, 2026, 5⟩ =
      ({ users := [{ userId := 5 }], clients := [⟨5, "650000009"⟩], sessions := [{ sessionId := 1, timeStart := some 1000 }] }, ⟨400, "studentId does not match your client profile"⟩) :=
  ⟨C10_profile.1 { users := [{ userId := 5 }], sessions := [{ sessionId := 1, timeStart := some 1000 }] } 5 ⟨1, "650000001", "0812345678", none⟩ ⟨0, 2026, 5⟩ { userId := 5 } (by decide) (by decide) (by decide) (by decide),
    C10_profile.2 { users := [{ userId := 5 }], clients := [⟨5, "650000009"⟩], sessions := [{ sessionId := 1, timeStart := some 1000 }] } 5 ⟨1, "650000001", "0812345678", none⟩ ⟨0, 2026, 5⟩ { userId := 5 } ⟨5, "650000009"⟩ (by decide) (by decide) (by decide) (by decide) (by decide)⟩

/-- The phone write is a no-op when the stored phone equals the submitted
(nonempty) one. -/
theorem bookSessionPhone_id {db : DB} {userId : Nat} {user : User}
    {phone : String} (hph : user.phoneNum = some phone) (hne : phone ≠ "") :
    bookSessionPhone db userId user phone = db := by
  unfold bookSessionPhone
  rw [hph]
  have : jsOrStr (some phone) "" = phone := by
    simp [jsOrStr, isEmpty_false_of_ne hne]
  rw [this, if_neg (by exact fun h => h rfl)]

/-! ## Claim C1: conditional reservation and the race loser's error -/

/-- Claim C1, counterexample: in the first-schema bookingController.ts, a
booking request whose conditional update affects zero rows (session already
booked) is answered by the catch-all handler with the generic internal error
500 Failed to book slot, not a Conflict with a slot-no-longer-available
message. -/
theorem C1_counterexample :
    BC.bookSlot { sessions := [{ sessionId := 1, status := "booked" }], students := [⟨77, 5⟩] } 1 5 none =
      ({ sessions := [{ sessionId := 1, status := "booked" }], students := [⟨77, 5⟩] }, ⟨500, "Failed to book slot"⟩) ∧
      (500 : Nat) ≠ 409 := by
  constructor <;> decide

/-- Claim C1, amended: every booking path reserves through the single
conditional update, but the zero-row outcomes differ. The sprint-2 bookSlot
transaction aborts with no state change and answers 409 with the
slot-taken message; the first-schema bookSlot also changes nothing but
surfaces the race as a generic 500; and bookSession answers 409 Session
already booked with the session table unchanged, yet the queue token written
earlier in the same transaction is committed, so the operation is not free
of state change. -/
theorem C1_amended :
    (∀ (db : DB) (sid : Nat) (clientId : String) (userId : Option Nat)
        (now : Int) (details : String),
      (db.sessions.filter
        (fun s => s.sessionId == sid && s.status == "available")).length = 0 →
      bookSlotTxP9 db sid clientId userId now details =
        (db, ⟨409, "This slot was just booked by someone else. Please choose another time."⟩)) ∧
    (∀ (st : BC.St) (sid uid : Nat) (desc : Option String)
        (student : BC.Student),
      sid ≠ 0 → uid ≠ 0 →
      st.students.find? (fun s => s.userId == uid) = some student →
      (st.sessions.filter
        (fun s => s.sessionId == sid && s.status == "available")).length = 0 →
      BC.bookSlot st sid uid desc = (st, ⟨500, "Failed to book slot"⟩)) ∧
    (∀ (db : DB) (userId : Nat) (req : BookReq) (clock : Clock) (user : User)
        (cl : Client) (lc : Case) (sess : Session) (t : Int),
      isDigits9 req.studentId = true →
      isDigits10 req.phone = true →
      db.users.find? (fun u => u.userId == userId) = some user →
      db.clients.find? (fun c => c.userId == userId) = some cl →
      cl.clientId = req.studentId →
      user.phoneNum = some req.phone →
      findLatestCase db.cases (fun c => c.clientId == cl.clientId) = some lc →
      db.cases.find? (fun c => c.caseId == lc.caseId) = some lc →
      lc.queueToken = none →
      db.sessions.find? (fun s => s.sessionId == req.sessionId) = some sess →
      sess.timeStart = some t →
      (db.sessions.filter
        (fun s => s.sessionId == req.sessionId && s.status == "available")).length ≠ 1 →
      caseIdsNodup db →
      ∃ db' : DB,
        bookSession db userId req clock = (db', ⟨409, "Session already booked"⟩) ∧
          db'.sessions = db.sessions ∧
          ∃ tok : String, tok ≠ "" ∧
            ∀ c ∈ db'.cases, c.caseId = lc.caseId → c.queueToken = some tok) := by
  refine ⟨?_, ?_, ?_⟩
  · intro db sid clientId userId now details hm
    simp [bookSlotTxP9, hm]
  · intro st sid uid desc student hsid huid hstud hm
    simp only [BC.bookSlot, hstud, hm]
    rw [if_neg (by push_neg; exact ⟨hsid, huid⟩), if_pos trivial]
  · intro db userId req clock user cl lc sess t h9 h10 husers hclients hcl
      hphone hlatest hlcfind hlcq hsfind hts hm hcnd
    have hphne : req.phone ≠ "" := by
      intro hcontra
      rw [hcontra] at h10
      simp [isDigits10] at h10
    have hbody : bookSession db userId req clock =
        bookSessionGo db userId user cl req clock := by
      simp only [bookSession, h9, h10, not_true_eq_false, if_false, husers,
        hclients, hcl, ne_eq, not_true_eq_false, if_false]
    have hgo : bookSessionGo db userId user cl req clock =
        bookSessionTx db userId lc.caseId req clock := by
      unfold bookSessionGo
      dsimp only
      rw [bookSessionPhone_id hphone hphne, hlatest]
    have htrf : strTruthy lc.queueToken = false := by rw [hlcq]; rfl
    have hgen := @getOrGen_gen db lc.caseId clock lc hlcfind htrf
    set newTok := nextTokenStr (p9YearCode clock)
      (lastTokenMax db.cases (p9YearCode clock)) with hnewTok
    set db3 : DB := { db with
      cases := updateCaseIn db.cases lc.caseId
        (fun c => { c with queueToken := some newTok }) } with hdb3
    have htx : bookSessionTx db userId lc.caseId req clock =
        (db3, ⟨409, "Session already booked"⟩) := by
      unfold bookSessionTx
      simp only [hsfind, hts, hgen]
      rw [if_pos hm]
    refine ⟨db3, by rw [hbody, hgo, htx], rfl, newTok,
      nextTokenStr_ne _ _ (p9YearCode_len clock), ?_⟩
    intro c hc hck
    have hcnd' : (List.map (fun y : Case => y.caseId) db.cases).Nodup := hcnd
    have hcu := mem_keyed_update (fun y : Case => y.caseId) _ db.cases lc.caseId
      hcnd' lc hlcfind hc hck
    rw [hcu]

/-- Witness exercising all three zero-row reservation paths of C1_amended on
concrete states. -/
theorem C1_amended_witness :
    bookSlotTxP9 { sessions := [{ sessionId := 1, status := "booked" }] } 1 "x" none 0 "" =
      ({ sessions := [{ sessionId := 1, status := "booked" }] }, ⟨409, "This slot was just booked by someone else. Please choose another time."⟩) ∧
    BC.bookSlot { sessions := [{ sessionId := 1, status := "booked" }], students := [⟨77, 5⟩] } 1 5 none = ({ sessions := [{ sessionId := 1, status := "booked" }], students := [⟨77, 5⟩] }, ⟨500, "Failed to book slot"⟩) ∧
    (∃ db' : DB,
      bookSession { users := [{ userId := 5, phoneNum := some "0812345678" }], clients := [⟨5, "650000001"⟩], cases := [{ caseId := 1, clientId := "650000001", status := "waiting_confirmation" }], sessions := [{ sessionId := 1, timeStart := some 1000, status := "booked" }], nextCaseId := 2 } 5 ⟨1, "650000001", "0812345678", none⟩ ⟨0, 2026, 5⟩ = (db', ⟨409, "Session already booked"⟩) ∧
        db'.sessions = ({ users := [{ userId := 5, phoneNum := some "0812345678" }], clients := [⟨5, "650000001"⟩], cases := [{ caseId := 1, clientId := "650000001", status := "waiting_confirmation" }], sessions := [{ sessionId := 1, timeStart := some 1000, status := "booked" }], nextCaseId := 2 } : DB).sessions ∧
        ∃ tok : String, tok ≠ "" ∧
          ∀ c ∈ db'.cases, c.caseId = 1 → c.queueToken = some tok) :=
  ⟨C1_amended.1 { sessions := [{ sessionId := 1, status := "booked" }] } 1 "x" none 0 "" (by decide),
    C1_amended.2.1 { sessions := [{ sessionId := 1, status := "booked" }], students := [⟨77, 5⟩] } 1 5 none ⟨77, 5⟩ (by decide) (by decide) (by decide) (by decide),
    C1_amended.2.2 { users := [{ userId := 5, phoneNum := some "0812345678" }], clients := [⟨5, "650000001"⟩], cases := [{ caseId := 1, clientId := "650000001", status := "waiting_confirmation" }], sessions := [{ sessionId := 1, timeStart := some 1000, status := "booked" }], nextCaseId := 2 } 5 ⟨1, "650000001", "0812345678", none⟩ ⟨0, 2026, 5⟩ { userId := 5, phoneNum := some "0812345678" } ⟨5, "650000001"⟩ { caseId := 1, clientId := "650000001", status := "waiting_confirmation" } { sessionId := 1, timeStart := some 1000, status := "booked" } 1000 (by decide) (by decide) (by decide) (by decide) (by decide) (by decide) (by decide) (by decide) (by decide) (by decide) (by decide) (by decide) (by decide)⟩

/-- Successful pass through the bookSession transaction: the session is
reserved and stamped with the session token built from the queue token and
the prior attached-session count plus one. -/
theorem bookSessionTx_success {db2 : DB} (userId : Nat) {latestCaseId : Nat}
    {req : BookReq} {clock : Clock} {sess : Session} {t : Int} {db3 : DB}
    {qt : String}
    (hsfind : db2.sessions.find? (fun s => s.sessionId == req.sessionId) = some sess)
    (hts : sess.timeStart = some t)
    (hgen : getOrGenerateQueueToken db2 latestCaseId clock = some (db3, qt))
    (hsess3 : db3.sessions = db2.sessions)
    (hm1 : (db2.sessions.filter
      (fun s => s.sessionId == req.sessionId && s.status == "available")).length = 1) :
    bookSessionTx db2 userId latestCaseId req clock =
      ({ db3 with
          sessions := db2.sessions.map (fun s =>
            if s.sessionId == req.sessionId && s.status == "available" then
              { s with status := "booked", sessionName := some req.studentId, caseId := some latestCaseId, sessionToken := some (qt ++ "-" ++ jsPadStart (decStr ((db2.sessions.filter (fun s => s.caseId == some latestCaseId)).length + 1)) 3 '0') }
            else s),
          histories := db3.histories ++ [⟨req.sessionId, "CLIENT_BOOKED", "studentId=" ++ req.studentId ++ ";phone=" ++ req.phone ++ ";description=" ++ jsOrStr req.description "", userId⟩] },
        ⟨200, "Booked successfully"⟩) := by
  unfold bookSessionTx
  simp only [hsfind, hts, hgen, hsess3]
  rw [if_neg (not_not_intro hm1)]

/-! ## Claim C6: session-token formula on first reservation -/

/-- Claim C6, counterexample: a first booking for a case with zero attached
sessions stores the session token 690001-001 (sequence = count + 1), not
690001-000 as the 3-digit zero-padded rendering of the prior-session count
itself would give. -/
theorem C6_counterexample :
    ((bookSession { users := [{ userId := 5, phoneNum := some "0812345678" }], clients := [⟨5, "650000001"⟩], cases := [{ caseId := 1, clientId := "650000001", status := "waiting_confirmation" }], sessions := [{ sessionId := 1, timeStart := some 1000 }], nextCaseId := 2 } 5 ⟨1, "650000001", "0812345678", none⟩ ⟨0, 2026, 5⟩).1.sessions.map (fun s => s.sessionToken)) = [some "690001-001"] ∧
      ((bookSession { users := [{ userId := 5, phoneNum := some "0812345678" }], clients := [⟨5, "650000001"⟩], cases := [{ caseId := 1, clientId := "650000001", status := "waiting_confirmation" }], sessions := [{ sessionId := 1, timeStart := some 1000 }], nextCaseId := 2 } 5 ⟨1, "650000001", "0812345678", none⟩ ⟨0, 2026, 5⟩).1.cases.map (fun c => c.queueToken)) = [some "690001"] ∧
      (({ users := [{ userId := 5, phoneNum := some "0812345678" }], clients := [⟨5, "650000001"⟩], cases := [{ caseId := 1, clientId := "650000001", status := "waiting_confirmation" }], sessions := [{ sessionId := 1, timeStart := some 1000 }], nextCaseId := 2 } : DB).sessions.filter (fun x => x.caseId == some 1)).length = 0 ∧
      some "690001-001" ≠
        some ("690001" ++ "-" ++ jsPadStart (decStr 0) 3 '0') := by
  refine ⟨?_, ?_, ?_, ?_⟩ <;> decide

/-- Claim C6, amended: on a successful reservation, the stored session token
is the case's queue token, a hyphen, and the 3-digit zero-padded value of
the count of sessions attached to the case before this booking plus one;
the queue token is obtained or generated first (the reserved session's token
extends the very token held by the case after the call, which is the
pre-existing one whenever the case already had a truthy token). -/
theorem C6_amended (db : DB) (userId : Nat) (req : BookReq) (clock : Clock)
    (user : User) (cl : Client) (lc : Case) (sess : Session) (t : Int)
    (h9 : isDigits9 req.studentId = true) (h10 : isDigits10 req.phone = true)
    (husers : db.users.find? (fun u => u.userId == userId) = some user)
    (hclients : db.clients.find? (fun c => c.userId == userId) = some cl)
    (hcl : cl.clientId = req.studentId)
    (hphone : user.phoneNum = some req.phone)
    (hlatest : findLatestCase db.cases (fun c => c.clientId == cl.clientId) = some lc)
    (hlcfind : db.cases.find? (fun c => c.caseId == lc.caseId) = some lc)
    (hsfind : db.sessions.find? (fun s => s.sessionId == req.sessionId) = some sess)
    (hts : sess.timeStart = some t)
    (hm1 : (db.sessions.filter
      (fun s => s.sessionId == req.sessionId && s.status == "available")).length = 1)
    (hsnd : sessIdsNodup db) (hcnd : caseIdsNodup db) :
    ∃ (db' : DB) (qt : String),
      bookSession db userId req clock = (db', ⟨200, "Booked successfully"⟩) ∧
        (∀ c ∈ db'.cases, c.caseId = lc.caseId → c.queueToken = some qt) ∧
        (strTruthy lc.queueToken = true → lc.queueToken = some qt) ∧
        (∀ x ∈ db'.sessions, x.sessionId = req.sessionId →
          x.status = "booked" ∧ x.caseId = some lc.caseId ∧
            x.sessionToken = some (qt ++ "-" ++
              jsPadStart (decStr
                ((db.sessions.filter
                  (fun s => s.caseId == some lc.caseId)).length + 1)) 3 '0')) := by
  have hphne : req.phone ≠ "" := by
    intro hcontra
    rw [hcontra] at h10
    simp [isDigits10] at h10
  have hbody : bookSession db userId req clock =
      bookSessionGo db userId user cl req clock := by
    simp only [bookSession, h9, h10, not_true_eq_false, if_false, husers,
      hclients, hcl, ne_eq, not_true_eq_false, if_false]
  have hgo : bookSessionGo db userId user cl req clock =
      bookSessionTx db userId lc.caseId req clock := by
    unfold bookSessionGo
    dsimp only
    rw [bookSessionPhone_id hphone hphne, hlatest]
  have hsnd' : (List.map (fun y : Session => y.sessionId) db.sessions).Nodup :=
    hsnd
  have hcnd' : (List.map (fun y : Case => y.caseId) db.cases).Nodup := hcnd
  have hsessid : sess.sessionId = req.sessionId := by
    have := List.find?_some hsfind
    simpa using this
  have hsessmem : sess ∈ db.sessions := List.mem_of_find?_eq_some hsfind
  obtain ⟨y, hy⟩ := List.length_eq_one.mp hm1
  have hymem : y ∈ db.sessions ∧
      (y.sessionId == req.sessionId && y.status == "available") = true := by
    have : y ∈ db.sessions.filter
        (fun s => s.sessionId == req.sessionId && s.status == "available") := by
      rw [hy]
      exact List.mem_singleton_self y
    exact List.mem_filter.mp this
  have hyid : y.sessionId = req.sessionId := by
    have := hymem.2
    simp only [Bool.and_eq_true, beq_iff_eq] at this
    exact this.1
  have hsessy : sess = y :=
    nodupKeyMem (fun s : Session => s.sessionId) db.sessions hsnd' hsessmem
      hymem.1 (by show sess.sessionId = y.sessionId; rw [hsessid, hyid])
  have hsessav : (sess.sessionId == req.sessionId && sess.status == "available") = true := by
    rw [hsessy]
    exact hymem.2
  have hsesscase :
      ∀ (latestCaseId : Nat) (stok : Option String) (db' : DB),
        db'.sessions = db.sessions.map (fun s =>
          if s.sessionId == req.sessionId && s.status == "available" then
            { s with status := "booked", sessionName := some req.studentId, caseId := some latestCaseId, sessionToken := stok }
          else s) →
        ∀ x ∈ db'.sessions, x.sessionId = req.sessionId →
          x.status = "booked" ∧ x.caseId = some latestCaseId ∧
            x.sessionToken = stok := by
    intro latestCaseId stok db' hdbs x hx hxid
    rw [hdbs] at hx
    obtain ⟨x0, hx0, hfx0⟩ := List.mem_map.mp hx
    have hfid : ∀ s : Session,
        ((fun s => if s.sessionId == req.sessionId && s.status == "available" then
          { s with status := "booked", sessionName := some req.studentId, caseId := some latestCaseId, sessionToken := stok }
        else s) s).sessionId = s.sessionId := by
      intro s
      by_cases h : (s.sessionId == req.sessionId && s.status == "available") = true <;>
        simp [h]
    have hx0id : x0.sessionId = req.sessionId := by
      have h1 : x.sessionId = x0.sessionId := by
        rw [← hfx0]
        exact hfid x0
      rw [← h1, hxid]
    have hx0sess : x0 = sess :=
      nodupKeyMem (fun s : Session => s.sessionId) db.sessions hsnd' hx0 hsessmem
        (by show x0.sessionId = sess.sessionId; rw [hx0id, hsessid])
    rw [← hfx0, hx0sess, if_pos hsessav]
    exact ⟨rfl, rfl, rfl⟩
  by_cases htr : strTruthy lc.queueToken = true
  · rcases hq : lc.queueToken with _ | t0
    · rw [hq] at htr
      simp [strTruthy] at htr
    · have hne : t0 ≠ "" := by
        rw [hq] at htr
        simp only [strTruthy, Bool.not_eq_true'] at htr
        exact ne_empty_of_isEmpty_false htr
      have hgen := @getOrGen_ret db lc.caseId clock lc t0 hlcfind hq hne
      have htx := bookSessionTx_success userId hsfind hts hgen rfl hm1
      refine ⟨_, t0, by rw [hbody, hgo, htx], ?_, fun _ => rfl, ?_⟩
      · intro c hc hck
        have hlcmem : lc ∈ db.cases := List.mem_of_find?_eq_some hlcfind
        have : c = lc :=
          nodupKeyMem (fun y : Case => y.caseId) db.cases hcnd' hc hlcmem hck
        rw [this, hq]
      · exact hsesscase lc.caseId _ _ rfl
  · have htrf : strTruthy lc.queueToken = false := by
      cases hx : strTruthy lc.queueToken
      · rfl
      · exact absurd hx htr
    have hgen := @getOrGen_gen db lc.caseId clock lc hlcfind htrf
    have htx := bookSessionTx_success userId hsfind hts hgen rfl hm1
    refine ⟨_, nextTokenStr (p9YearCode clock) (lastTokenMax db.cases (p9YearCode clock)),
      by rw [hbody, hgo, htx], ?_, fun hcontra => absurd hcontra (by rw [htrf]; simp), ?_⟩
    · intro c hc hck
      have hcu := mem_keyed_update (fun y : Case => y.caseId) _ db.cases lc.caseId
        hcnd' lc hlcfind hc hck
      rw [hcu]
    · exact hsesscase lc.caseId _ _ rfl

/-- Witness for C6_amended: a first booking on a fresh case stores the
queue-token-dash-001 session token. -/
theorem C6_amended_witness :
    ∃ (db' : DB) (qt : String),
      bookSession { users := [{ userId := 5, phoneNum := some "0812345678" }], clients := [⟨5, "650000001"⟩], cases := [{ caseId := 1, clientId := "650000001", status := "waiting_confirmation" }], sessions := [{ sessionId := 1, timeStart := some 1000 }], nextCaseId := 2 } 5 ⟨1, "650000001", "0812345678", none⟩ ⟨0, 2026, 5⟩ = (db', ⟨200, "Booked successfully"⟩) ∧
        (∀ c ∈ db'.cases, c.caseId = 1 → c.queueToken = some qt) ∧
        (strTruthy ({ caseId := 1, clientId := "650000001", status := "waiting_confirmation" } : Case).queueToken = true → ({ caseId := 1, clientId := "650000001", status := "waiting_confirmation" } : Case).queueToken = some qt) ∧
        (∀ x ∈ db'.sessions, x.sessionId = 1 →
          x.status = "booked" ∧ x.caseId = some 1 ∧
            x.sessionToken = some (qt ++ "-" ++ jsPadStart (decStr ((({ users := [{ userId := 5, phoneNum := some "0812345678" }], clients := [⟨5, "650000001"⟩], cases := [{ caseId := 1, clientId := "650000001", status := "waiting_confirmation" }], sessions := [{ sessionId := 1, timeStart := some 1000 }], nextCaseId := 2 } : DB).sessions.filter (fun s => s.caseId == some 1)).length + 1)) 3 '0')) :=
  C6_amended { users := [{ userId := 5, phoneNum := some "0812345678" }], clients := [⟨5, "650000001"⟩], cases := [{ caseId := 1, clientId := "650000001", status := "waiting_confirmation" }], sessions := [{ sessionId := 1, timeStart := some 1000 }], nextCaseId := 2 } 5 ⟨1, "650000001", "0812345678", none⟩ ⟨0, 2026, 5⟩ { userId := 5, phoneNum := some "0812345678" } ⟨5, "650000001"⟩ { caseId := 1, clientId := "650000001", status := "waiting_confirmation" } { sessionId := 1, timeStart := some 1000 } 1000 (by decide) (by decide) (by decide) (by decide) (by decide) (by decide) (by decide) (by decide) (by decide) (by decide) (by decide) (by decide) (by decide)

/-! ## State-shape lemmas: what each operation does to the session table -/

theorem all_map_pres {f : Session → Session} {l : List Session}
    (hf : ∀ s ∈ l, sessInvWB s = true → sessInvWB (f s) = true)
    (h : l.all sessInvWB = true) : (l.map f).all sessInvWB = true := by
  rw [List.all_eq_true] at h ⊢
  intro x hx
  obtain ⟨s, hs, rfl⟩ := List.mem_map.mp hx
  exact hf s hs (h s hs)

theorem ids_map {f : Session → Session}
    (hf : ∀ s, (f s).sessionId = s.sessionId) (l : List Session) :
    (l.map f).map (fun s => s.sessionId) = l.map (fun s => s.sessionId) := by
  rw [List.map_map]
  congr 1
  funext s
  exact hf s

/-- cancelBooking either leaves the session table alone or releases the
cancelled session. -/
theorem cancelBooking_state (db : DB) (sid : Nat) (c : String) (n : Int) :
    (cancelBooking db sid c n).1.sessions = db.sessions ∨
      (cancelBooking db sid c n).1.sessions =
        updateSessionIn db.sessions sid
          (fun s => { s with status := "available", caseId := none }) := by
  unfold cancelBooking
  split
  · exact Or.inl rfl
  · split
    · exact Or.inl rfl
    · split
      · exact Or.inl rfl
      · split
        · exact Or.inl rfl
        · split
          · exact Or.inl rfl
          · split
            · exact Or.inl rfl
            · exact Or.inr rfl

/-- cancelClientSession either leaves the session table alone or releases
the session and clears its booking fields. -/
theorem cancelClientSession_state (db : DB) (u : Nat) (c : String) (sid : Nat) :
    (cancelClientSession db u c sid).1.sessions = db.sessions ∨
      (cancelClientSession db u c sid).1.sessions =
        updateSessionIn db.sessions sid
          (fun s => { s with status := "available", caseId := none, sessionName := none, counselorKeyword := none, counselorNote := none, counselorFollowup := none, moodScale := none, tagIds := [] }) := by
  unfold cancelClientSession
  split
  · exact Or.inl rfl
  · split
    · exact Or.inl rfl
    · dsimp only
      split
      · exact Or.inr rfl
      · exact Or.inl rfl

/-- updateAppointmentStatus either leaves the session table alone or
releases every session of the cancelled case. -/
theorem updateAppointmentStatus_state (db : DB) (cid : Nat) (raw : String)
    (reason : Option String) (k : Nat) (n : Int) :
    (updateAppointmentStatus db cid raw reason k n).1.sessions = db.sessions ∨
      (updateAppointmentStatus db cid raw reason k n).1.sessions =
        db.sessions.map (fun s =>
          if s.caseId == some cid then
            { s with status := "available", caseId := none }
          else s) := by
  unfold updateAppointmentStatus
  split
  · exact Or.inl rfl
  · split
    · exact Or.inl rfl
    · dsimp only
      split
      · exact Or.inl rfl
      · split
        · exact Or.inl rfl
        · split
          · exact Or.inl rfl
          · dsimp only
            split
            · exact Or.inr rfl
            · exact Or.inl rfl

/-- updateCaseNote either leaves the session table alone or rewrites the
edited session's clinical fields, completing it when asked. -/
theorem updateCaseNote_state (db : DB) (k u sid : Nat) (mood : Int)
    (a b c : String) (tagIds : List Nat) (mark : Bool) :
    (updateCaseNote db k u sid mood a b c tagIds mark).1.sessions = db.sessions ∨
      ∃ tags : List Nat,
        (updateCaseNote db k u sid mood a b c tagIds mark).1.sessions =
          updateSessionIn db.sessions sid
            (fun s0 => { s0 with moodScale := some mood, counselorKeyword := some a, counselorNote := some b, counselorFollowup := some c, status := if mark then "completed" else s0.status, tagIds := tags }) := by
  unfold updateCaseNote
  split
  · exact Or.inl rfl
  · split
    · exact Or.inl rfl
    · split
      · exact Or.inl rfl
      · split
        · exact Or.inl rfl
        · exact Or.inr ⟨_, rfl⟩

/-- generateQueueTokenCC never writes the session table. -/
theorem generateQueueTokenCC_state (db : DB) (c : String) (p : Option String)
    (ck : Clock) : (generateQueueTokenCC db c p ck).1.sessions = db.sessions := by
  unfold generateQueueTokenCC
  split
  · rfl
  · split
    · rfl
    · rfl

/-- The per-session write a successful bookSession reservation performs. -/
def bookedF (req : BookReq) (lc : Nat) (tok : String) : Session → Session :=
  fun s =>
    if s.sessionId == req.sessionId && s.status == "available" then
      { s with
          status := "booked", sessionName := some req.studentId,
          caseId := some lc, sessionToken := some tok }
    else s

/-- The sprint-2 booking transaction either leaves the session table alone,
or some matching available session existed and the table goes through the
status write followed by the case-reference write. -/
theorem bookSlotTxP9_state (db : DB) (sid : Nat) (c : String)
    (u : Option Nat) (n : Int) (d : String) :
    (bookSlotTxP9 db sid c u n d).1.sessions = db.sessions ∨
      ((∃ y ∈ db.sessions, (y.sessionId == sid && y.status == "available") = true) ∧
        (bookSlotTxP9 db sid c u n d).1.sessions =
          (db.sessions.map (fun s =>
            if s.sessionId == sid && s.status == "available" then
              { s with status := "booked" }
            else s)).map
            (fun s =>
              if s.sessionId == sid then { s with caseId := some db.nextCaseId }
              else s)) := by
  unfold bookSlotTxP9
  dsimp only
  split
  · exact Or.inl rfl
  · rename_i hlen
    have hne : db.sessions.filter
        (fun s => s.sessionId == sid && s.status == "available") ≠ [] := by
      intro he
      exact hlen (by rw [he]; rfl)
    obtain ⟨y, hy⟩ := List.exists_mem_of_ne_nil _ hne
    split
    · exact Or.inl rfl
    · exact Or.inr ⟨⟨y, (List.mem_filter.mp hy).1, (List.mem_filter.mp hy).2⟩, rfl⟩

/-- bookSlot either returns the state unchanged or delegates to the booking
transaction. -/
theorem bookSlotP9_state (db : DB) (sid : Nat) (c : String)
    (u : Option Nat) (n : Int) (d : String) :
    (bookSlotP9 db sid c u n d).1 = db ∨
      (bookSlotP9 db sid c u n d).1 = (bookSlotTxP9 db sid c u n d).1 := by
  unfold bookSlotP9
  split
  · exact Or.inl rfl
  · split
    · exact Or.inl rfl
    · dsimp only
      split
      · exact Or.inl rfl
      · exact Or.inr rfl

/-- The bookSession transaction either leaves the session table alone or
performs the single conditional reservation write. -/
theorem bookSessionTx_sessions (db2 : DB) (userId latestCaseId : Nat)
    (req : BookReq) (clock : Clock) :
    (bookSessionTx db2 userId latestCaseId req clock).1.sessions =
        db2.sessions ∨
      ∃ tok : String,
        (bookSessionTx db2 userId latestCaseId req clock).1.sessions =
          db2.sessions.map (bookedF req latestCaseId tok) := by
  unfold bookSessionTx
  split
  · exact Or.inl rfl
  · split
    · exact Or.inl rfl
    · split
      · exact Or.inl rfl
      · rename_i db3 caseToken heq
        have hfr := (getOrGen_frame heq).1
        dsimp only
        split
        · exact Or.inl hfr
        · exact Or.inr
            ⟨caseToken ++ "-" ++
                jsPadStart
                  (decStr ((db2.sessions.filter
                    (fun s => s.caseId == some latestCaseId)).length + 1)) 3 '0',
              by rw [hfr]; rfl⟩

/-- The settled-profile continuation either leaves the session table alone
or performs the single conditional reservation write against some case. -/
theorem bookSessionGo_sessions (db : DB) (userId : Nat) (user : User)
    (client : Client) (req : BookReq) (clock : Clock) :
    (bookSessionGo db userId user client req clock).1.sessions =
        db.sessions ∨
      ∃ (lc : Nat) (tok : String),
        (bookSessionGo db userId user client req clock).1.sessions =
          db.sessions.map (bookedF req lc tok) := by
  have hph := (bookSessionPhone_frame db userId user req.phone).2.2.1
  unfold bookSessionGo
  dsimp only
  split
  · rename_i cse _
    rcases bookSessionTx_sessions (bookSessionPhone db userId user req.phone)
        userId cse.caseId req clock with h | ⟨tok, h⟩
    · exact Or.inl (h.trans hph)
    · exact Or.inr ⟨cse.caseId, tok, by rw [h, hph]⟩
  · rcases bookSessionTx_sessions
        { bookSessionPhone db userId user req.phone with
            cases := (bookSessionPhone db userId user req.phone).cases ++
              [{ caseId := (bookSessionPhone db userId user req.phone).nextCaseId, clientId := client.clientId, status := defaultCaseStatus, createdAt := clock.ms }],
            nextCaseId :=
              (bookSessionPhone db userId user req.phone).nextCaseId + 1 }
        userId (bookSessionPhone db userId user req.phone).nextCaseId req clock
        with h | ⟨tok, h⟩
    · exact Or.inl (h.trans hph)
    · exact Or.inr
        ⟨(bookSessionPhone db userId user req.phone).nextCaseId, tok,
          by rw [h]; exact congrArg (fun l => List.map _ l) hph⟩

/-- bookSession either leaves the session table alone or performs the single
conditional reservation write against some case. -/
theorem bookSession_sessions (db : DB) (userId : Nat) (req : BookReq)
    (clock : Clock) :
    (bookSession db userId req clock).1.sessions = db.sessions ∨
      ∃ (lc : Nat) (tok : String),
        (bookSession db userId req clock).1.sessions =
          db.sessions.map (bookedF req lc tok) := by
  unfold bookSession
  split
  · exact Or.inl rfl
  · split
    · exact Or.inl rfl
    · split
      · exact Or.inl rfl
      · rename_i user _
        split
        · rename_i client _
          split
          · exact Or.inl rfl
          · exact bookSessionGo_sessions db userId user client req clock
        · dsimp only
          rcases bookSessionGo_sessions
              { db with clients := db.clients ++ [⟨userId, req.studentId⟩] }
              userId user ⟨userId, req.studentId⟩ req clock with h | ⟨lc, tok, h⟩
          · exact Or.inl h
          · exact Or.inr ⟨lc, tok, h⟩

/-- The sprint-2 get-or-generate queue token step never writes the session
table. -/
theorem stepQueueP9_sessions (db : DB) (cid : Nat) (ck : Clock) :
    (stepDB db (Op.opQueueTokenP9 cid ck)).sessions = db.sessions := by
  simp only [stepDB]
  split
  · rename_i d t heq
    exact (getOrGen_frame heq).1
  · rfl

/-! ## Pointwise facts about the invariant the code maintains -/

theorem sessInvWB_release (s : Session) :
    sessInvWB { s with status := "available", caseId := none } = true := rfl

theorem sessInvWB_clear (s : Session) :
    sessInvWB { s with status := "available", caseId := none, sessionName := none, counselorKeyword := none, counselorNote := none, counselorFollowup := none, moodScale := none, tagIds := [] } = true := rfl

theorem sessInvWB_bookedF (req : BookReq) (lc : Nat) (tok : String)
    (s : Session) (h : sessInvWB s = true) :
    sessInvWB (bookedF req lc tok s) = true := by
  unfold bookedF
  split
  · rfl
  · exact h

theorem sessInvWB_note (mood : Int) (a b c : String) (tags : List Nat)
    (mark : Bool) (s0 : Session) (h : sessInvWB s0 = true) :
    sessInvWB { s0 with moodScale := some mood, counselorKeyword := some a, counselorNote := some b, counselorFollowup := some c, status := if mark then "completed" else s0.status, tagIds := tags } = true := by
  cases mark
  · exact h
  · unfold sessInvWB
    cases hco : s0.caseId <;> rfl

/-! ## Per-operation preservation of the maintained invariant -/

theorem pres_same {db : DB} {l : List Session} (h : l = db.sessions)
    (hnd : sessIdsNodup db) (hinv : dbInvWB db = true) :
    (l.map (fun s => s.sessionId)).Nodup ∧ l.all sessInvWB = true := by
  subst h
  exact ⟨hnd, hinv⟩

theorem pres_map {db : DB} {l : List Session} {g : Session → Session}
    (h : l = db.sessions.map g)
    (hid : ∀ s, (g s).sessionId = s.sessionId)
    (hg : ∀ s ∈ db.sessions, sessInvWB s = true → sessInvWB (g s) = true)
    (hnd : sessIdsNodup db) (hinv : dbInvWB db = true) :
    (l.map (fun s => s.sessionId)).Nodup ∧ l.all sessInvWB = true := by
  subst h
  refine ⟨?_, all_map_pres hg hinv⟩
  rw [ids_map hid]
  exact hnd

/-- The sprint-2 booking transaction preserves distinct session ids and the
maintained invariant. -/
theorem bookSlotTx_pres (db : DB) (sid : Nat) (c : String) (u : Option Nat)
    (n : Int) (d : String) (hnd : sessIdsNodup db) (hinv : dbInvWB db = true) :
    sessIdsNodup (bookSlotTxP9 db sid c u n d).1 ∧
      dbInvWB (bookSlotTxP9 db sid c u n d).1 = true := by
  rcases bookSlotTxP9_state db sid c u n d with h | ⟨⟨y, hymem, hyp⟩, h⟩
  · exact pres_same h hnd hinv
  · rw [List.map_map] at h
    refine pres_map h ?_ ?_ hnd hinv
    · intro s
      simp only [Function.comp]
      split <;> split <;> rfl
    · intro s hs hsi
      simp only [Function.comp]
      by_cases h1 : (s.sessionId == sid && s.status == "available") = true
      · rw [if_pos h1]
        have h2 : ((({ s with status := "booked" } : Session).sessionId == sid) = true) :=
          ((Bool.and_eq_true _ _).mp h1).1
        rw [if_pos h2]
        rfl
      · rw [if_neg h1]
        by_cases h2 : (s.sessionId == sid) = true
        · exfalso
          have hyid : y.sessionId = sid := by
            have := ((Bool.and_eq_true _ _).mp hyp).1
            simpa using this
          have hsid : s.sessionId = sid := by simpa using h2
          have hys : y = s :=
            nodupKeyMem (fun s => s.sessionId) db.sessions hnd hymem hs
              (by show y.sessionId = s.sessionId; rw [hyid, hsid])
          rw [hys] at hyp
          exact h1 hyp
        · rw [if_neg h2]
          exact hsi

/-- Every operation of the model preserves distinct session ids and the
maintained invariant. -/
theorem stepDB_pres (db : DB) (op : Op) (hnd : sessIdsNodup db)
    (hinv : dbInvWB db = true) :
    sessIdsNodup (stepDB db op) ∧ dbInvWB (stepDB db op) = true := by
  cases op with
  | opBookSlot sid c u n d =>
    simp only [stepDB]
    rcases bookSlotP9_state db sid c u n d with h | h
    · rw [h]; exact ⟨hnd, hinv⟩
    · rw [h]; exact bookSlotTx_pres db sid c u n d hnd hinv
  | opBookSlotTx sid c u n d =>
    simp only [stepDB]
    exact bookSlotTx_pres db sid c u n d hnd hinv
  | opBookSession u req clock =>
    simp only [stepDB]
    rcases bookSession_sessions db u req clock with h | ⟨lc, tok, h⟩
    · exact pres_same h hnd hinv
    · refine pres_map h ?_ ?_ hnd hinv
      · intro s
        unfold bookedF
        split <;> rfl
      · intro s _ hs
        exact sessInvWB_bookedF req lc tok s hs
  | opCancelBooking sid c n =>
    simp only [stepDB]
    rcases cancelBooking_state db sid c n with h | h
    · exact pres_same h hnd hinv
    · refine pres_map h ?_ ?_ hnd hinv
      · intro s
        dsimp only
        split <;> rfl
      · intro s _ hs
        dsimp only
        split
        · exact sessInvWB_release _
        · exact hs
  | opCancelClient u c sid =>
    simp only [stepDB]
    rcases cancelClientSession_state db u c sid with h | h
    · exact pres_same h hnd hinv
    · refine pres_map h ?_ ?_ hnd hinv
      · intro s
        dsimp only
        split <;> rfl
      · intro s _ hs
        dsimp only
        split
        · exact sessInvWB_clear _
        · exact hs
  | opUpdateStatus cid raw r k n =>
    simp only [stepDB]
    rcases updateAppointmentStatus_state db cid raw r k n with h | h
    · exact pres_same h hnd hinv
    · refine pres_map h ?_ ?_ hnd hinv
      · intro s
        dsimp only
        split <;> rfl
      · intro s _ hs
        dsimp only
        split
        · exact sessInvWB_release _
        · exact hs
  | opUpdateNote k u sid m a b c tags mc =>
    simp only [stepDB]
    rcases updateCaseNote_state db k u sid m a b c tags mc with h | ⟨tags2, h⟩
    · exact pres_same h hnd hinv
    · refine pres_map h ?_ ?_ hnd hinv
      · intro s
        dsimp only
        split <;> rfl
      · intro s _ hs
        dsimp only
        split
        · exact sessInvWB_note m a b c tags2 mc s hs
        · exact hs
  | opQueueTokenCC c p clock =>
    simp only [stepDB]
    exact pres_same (generateQueueTokenCC_state db c p clock) hnd hinv
  | opQueueTokenP9 cid clock =>
    exact pres_same (stepQueueP9_sessions db cid clock) hnd hinv

/-- C9 counterexample: the biconditional invariant (booked exactly when the
case reference is set) is not preserved. From a state satisfying it, the
counselor note update with markCompleted reaches a state where the session's
status is completed while its case reference is still set, because
updateCaseNote writes the status but never clears sessionCaseId. -/
theorem C9_counterexample :
    dbInvIffB ({ sessions := [{ sessionId := 1, counselorId := some 7, status := "booked", caseId := some 1 }] } : DB) = true ∧
      dbInvIffB (runOps ({ sessions := [{ sessionId := 1, counselorId := some 7, status := "booked", caseId := some 1 }] } : DB) [Op.opUpdateNote 7 7 1 3 "" "" "" [] true]) = false := by
  exact ⟨rfl, rfl⟩

/-- C9 (amended): in every state reachable by the modeled operations from a
state with distinct session ids, the invariant the code actually maintains
holds: a booked session has its case reference set, and a session with a
case reference set is booked or completed. The spec's biconditional fails
only on the completed-with-case-reference states that updateCaseNote's
markCompleted path creates. -/
theorem C9_amended (db : DB) (ops : List Op) (hnd : sessIdsNodup db)
    (hinv : dbInvWB db = true) :
    sessIdsNodup (runOps db ops) ∧ dbInvWB (runOps db ops) = true := by
  induction ops generalizing db with
  | nil => exact ⟨hnd, hinv⟩
  | cons op t ih =>
    have h := stepDB_pres db op hnd hinv
    exact ih (stepDB db op) h.1 h.2

theorem C9_amended_witness :
    sessIdsNodup (runOps ({ sessions := [{ sessionId := 1, counselorId := some 7, status := "booked", caseId := some 1 }, { sessionId := 2 }] } : DB) [Op.opUpdateNote 7 7 1 3 "" "" "" [] true, Op.opCancelClient 5 "x" 2]) ∧
      dbInvWB (runOps ({ sessions := [{ sessionId := 1, counselorId := some 7, status := "booked", caseId := some 1 }, { sessionId := 2 }] } : DB) [Op.opUpdateNote 7 7 1 3 "" "" "" [] true, Op.opCancelClient 5 "x" 2]) = true :=
  C9_amended ({ sessions := [{ sessionId := 1, counselorId := some 7, status := "booked", caseId := some 1 }, { sessionId := 2 }] } : DB) [Op.opUpdateNote 7 7 1 3 "" "" "" [] true, Op.opCancelClient 5 "x" 2] (by decide) (by decide)
